import Mathlib

set_option maxHeartbeats 1000000
set_option maxRecDepth 8000

/-!
Verification of the MO32 crane-compliance rule engine
(`mo32_one_button_app.py`).  The engine's pure core — the field
normalizers, the interval checks, the mandatory yes/no table walk, the
cross-field contradiction and evidence checks, and the PASS/ATTENTION/FAIL
aggregation — is embedded shallowly below.  Calendar dates are
represented by their day number relative to 1970-01-01 (so differences of
dates in days are differences of integers, exactly as `timedelta.days`).
Python floats are modelled by `PyFloat` over exact rationals: NaN and the
infinities are explicit constructors, decimal literals are parsed exactly
(the binary rounding of IEEE doubles is idealized away; all comparisons
used by the engine agree on every decimal input of fewer than sixteen
significant digits, and the engine is only ever fed short decimals).
The module-level reference date `TODAY` of the source is passed explicitly
as the `today` argument, following the shallow embedding of module state.
-/

namespace MO32

/-- Cell values as they reach the rule engine: Python `None`, a float NaN
(the blank-cell sentinel of a spreadsheet import), a text value, or an
already-typed calendar date (`pd.Timestamp` / `datetime`), the latter
carried as its day number relative to 1970-01-01. -/
inductive Value where
  | vnone : Value
  | vnan : Value
  | vstr : String → Value
  | vdate : Int → Value
deriving DecidableEq

/-- Python `str.lower()` (ASCII case mapping). -/
def pyLower (s : String) : String := ⟨s.data.map Char.toLower⟩

/-- Python `str.upper()` (ASCII case mapping). -/
def pyUpper (s : String) : String := ⟨s.data.map Char.toUpper⟩

/-- Python `str.strip()`: remove whitespace from both ends. -/
def pyStrip (s : String) : String :=
  ⟨((s.data.dropWhile Char.isWhitespace).reverse.dropWhile Char.isWhitespace).reverse⟩

/-- Split a character list at every occurrence of the separator
character (Python `str.split(sep)` for a one-character separator). -/
def splitOnCh (sep : Char) : List Char → List (List Char)
  | [] => [[]]
  | c :: t =>
    if c = sep then [] :: splitOnCh sep t
    else
      match splitOnCh sep t with
      | [] => [[c]]
      | h :: r => (c :: h) :: r

/-- The string fields obtained by splitting at a separator character. -/
def splitSep (sep : Char) (s : String) : List String :=
  (splitOnCh sep s.data).map (fun l => ⟨l⟩)

/-- Replace every occurrence of the (nonempty) pattern, scanning left to
right, with enough fuel to consume the whole list. -/
def replaceAux (pat repl : List Char) : Nat → List Char → List Char
  | _, [] => []
  | 0, cs => cs
  | n + 1, c :: t =>
    if pat.isPrefixOf (c :: t) then
      repl ++ replaceAux pat repl n ((c :: t).drop pat.length)
    else c :: replaceAux pat repl n t

/-- Python `s.replace(pat, repl)`; the engine only ever replaces the
nonempty pattern " (Y/N)", so the empty-pattern case is immaterial and
left as the identity. -/
def pyReplace (s pat repl : String) : String :=
  if pat.data.isEmpty then s
  else ⟨replaceAux pat.data repl.data s.data.length s.data⟩

/-- Whether `needle` occurs contiguously inside the character list. -/
def hasSub (needle : List Char) : List Char → Bool
  | [] => needle.isEmpty
  | c :: t => needle.isPrefixOf (c :: t) || hasSub needle t

/-- Python `needle in hay` on strings. -/
def containsSub (hay needle : String) : Bool := hasSub needle.data hay.data

/-- Whether `s` starts with `p`, via the underlying character lists. -/
def strStartsWith (s p : String) : Bool := p.data.isPrefixOf s.data

/-- Gregorian leap-year rule, as used by `datetime.date`. -/
def isLeapYear (y : Nat) : Bool := y % 4 = 0 && (y % 100 ≠ 0 || y % 400 = 0)

/-- Length of month `m` of year `y` (`datetime` validation). -/
def daysInMonth (y m : Nat) : Nat :=
  if m = 2 then (if isLeapYear y then 29 else 28)
  else if m = 4 ∨ m = 6 ∨ m = 9 ∨ m = 11 then 30
  else 31

/-- The day/month/year triples accepted by the `datetime.date` constructor
(`MINYEAR = 1`, `MAXYEAR = 9999`). -/
def validDMY (d m y : Nat) : Bool :=
  1 ≤ y && y ≤ 9999 && 1 ≤ m && m ≤ 12 && 1 ≤ d && d ≤ daysInMonth y m

/-- Day number of the civil date `y-m-d` relative to 1970-01-01
(Gregorian, proleptic), the standard days-from-civil computation. -/
def toRataDie (y m d : Nat) : Int :=
  let yy : Nat := if m ≤ 2 then y - 1 else y
  let era : Nat := yy / 400
  let yoe : Nat := yy % 400
  let mp : Nat := if 2 < m then m - 3 else m + 9
  let doy : Nat := (153 * mp + 2) / 5 + d - 1
  let doe : Nat := yoe * 365 + yoe / 4 - yoe / 100 + doy
  (era * 146097 + doe : Int) - 719468

/-- Civil date `(y, m, d)` of a day number (inverse of `toRataDie`),
used only to render a date value back to text the way `str(date)` does. -/
def civilFromDays (z0 : Int) : Int × Nat × Nat :=
  let z : Int := z0 + 719468
  let era : Int := Int.fdiv z 146097
  let doe : Nat := (z - era * 146097).toNat
  let yoe : Nat := (doe - doe / 1460 + doe / 36524 - doe / 146096) / 365
  let doy : Nat := doe - (365 * yoe + yoe / 4 - yoe / 100)
  let mp : Nat := (5 * doy + 2) / 153
  let d : Nat := doy - (153 * mp + 2) / 5 + 1
  let m : Nat := if mp < 10 then mp + 3 else mp - 9
  (era * 400 + yoe + (if m ≤ 2 then 1 else 0), m, d)

/-- Left-pad the decimal rendering of `n` with zeros to `width` digits. -/
def natPad (width n : Nat) : String :=
  let s := toString n
  ⟨List.replicate (width - s.data.length) '0' ++ s.data⟩

/-- `str(datetime.date)`: ISO `YYYY-MM-DD` rendering of a day number. -/
def isoDateStr (z : Int) : String :=
  let c := civilFromDays z
  (if c.1 < 0 then "-" else "") ++ natPad 4 c.1.natAbs ++ "-" ++
    natPad 2 c.2.1 ++ "-" ++ natPad 2 c.2.2

/-- Python `str(v)` for the cell values the engine sees. -/
def str_of : Value → String
  | .vnone => "None"
  | .vnan => "nan"
  | .vstr s => s
  | .vdate d => isoDateStr d

/-- Python truthiness of a cell value (`bool(v)`); note NaN is truthy. -/
def truthy : Value → Bool
  | .vnone => false
  | .vnan => true
  | .vstr s => !(s == "")
  | .vdate _ => true

/-- Digit-string to number (the fields below are pre-validated digits). -/
def digitsToNat (cs : List Char) : Nat :=
  cs.foldl (fun a c => a * 10 + (c.toNat - 48)) 0

/-- A one-or-two digit numeric field, as matched by the `%d`/`%m`
directives of `strptime`. -/
def numField2 (s : String) : Bool :=
  !s.data.isEmpty && s.data.length ≤ 2 && s.data.all Char.isDigit

/-- A four-digit field, as matched by the `%Y` directive of `strptime`. -/
def numField4 (s : String) : Bool :=
  s.data.length = 4 && s.data.all Char.isDigit

/-- `datetime.strptime(s, "%d<sep>%m<sep>%Y").date()` as an option: the
three separated fields must be digit groups of the right widths and the
triple must be a valid `datetime.date`. -/
def strptimeDMY (sep : Char) (s : String) : Option Int :=
  match splitSep sep s with
  | [ds, ms, ys] =>
    if numField2 ds && numField2 ms && numField4 ys then
      let d := digitsToNat ds.data
      let m := digitsToNat ms.data
      let y := digitsToNat ys.data
      if validDMY d m y then some (toRataDie y m d) else none
    else none
  | _ => none

/-- `datetime.strptime(s, "%Y-%m-%d").date()` as an option. -/
def strptimeYMD (s : String) : Option Int :=
  match splitSep '-' s with
  | [ys, ms, ds] =>
    if numField4 ys && numField2 ms && numField2 ds then
      let d := digitsToNat ds.data
      let m := digitsToNat ms.data
      let y := digitsToNat ys.data
      if validDMY d m y then some (toRataDie y m d) else none
    else none
  | _ => none

/-- The `DATE_FORMATS` loop of `parse_date`: try `%d-%m-%Y`, then
`%d/%m/%Y`, then `%Y-%m-%d`, first success wins. -/
def tryFormats (s : String) : Option Int :=
  (strptimeDMY '-' s).orElse fun _ =>
    (strptimeDMY '/' s).orElse fun _ => strptimeYMD s

/-- An exact rational as a numerator / positive-denominator pair (kept
unnormalized; every operation below preserves a positive denominator for
the inputs the engine constructs). -/
structure PyRat where
  num : Int
  den : Nat
deriving DecidableEq

/-- Embed a natural number. -/
def PyRat.ofNat (n : Nat) : PyRat := ⟨n, 1⟩

/-- Exact addition by cross multiplication. -/
def PyRat.add (a b : PyRat) : PyRat := ⟨a.num * b.den + b.num * a.den, a.den * b.den⟩

/-- Exact multiplication. -/
def PyRat.mul (a b : PyRat) : PyRat := ⟨a.num * b.num, a.den * b.den⟩

/-- Negation. -/
def PyRat.neg (a : PyRat) : PyRat := ⟨-a.num, a.den⟩

/-- Exact subtraction. -/
def PyRat.sub (a b : PyRat) : PyRat := a.add b.neg

/-- Exact division (sign moved to the numerator). -/
def PyRat.div (a b : PyRat) : PyRat :=
  if b.num < 0 then ⟨-(a.num * b.den), a.den * b.num.natAbs⟩
  else ⟨a.num * b.den, a.den * b.num.natAbs⟩

/-- The power of ten `10 ^ e`. -/
def PyRat.pow10 (e : Nat) : PyRat := ⟨((10 : Nat) ^ e : Nat), 1⟩

/-- Strict comparison by cross multiplication (valid as denominators are
positive). -/
def PyRat.lt (a b : PyRat) : Bool := a.num * b.den < b.num * a.den

/-- Non-strict comparison by cross multiplication. -/
def PyRat.le (a b : PyRat) : Bool := a.num * b.den ≤ b.num * a.den

/-- Whether the value is zero. -/
def PyRat.isZero (a : PyRat) : Bool := a.num == 0

/-- Absolute value. -/
def PyRat.abs (a : PyRat) : PyRat := ⟨a.num.natAbs, a.den⟩

/-- The floor, as an integer. -/
def PyRat.floor (a : PyRat) : Int := Int.fdiv a.num a.den

/-- A Python float: NaN, a signed infinity, or a finite value (modelled
as an exact rational; see the module docstring for the idealization). -/
inductive PyFloat where
  | nan : PyFloat
  | inf : Bool → PyFloat
  | val : PyRat → PyFloat
deriving DecidableEq

/-- Python `a > b` on floats: any comparison with NaN is false. -/
def PyFloat.gt : PyFloat → PyFloat → Bool
  | .nan, _ => false
  | _, .nan => false
  | .inf a, .inf b => a && !b
  | .inf a, .val _ => a
  | .val _, .inf b => !b
  | .val a, .val b => PyRat.lt b a

/-- No two consecutive underscores. -/
def noDoubleUnd : List Char → Bool
  | '_' :: '_' :: _ => false
  | _ :: t => noDoubleUnd t
  | [] => true

/-- A digit group of a Python float literal: nonempty, underscores only
singly and only between digits. -/
def goodURun (cs : List Char) : Bool :=
  !cs.isEmpty && cs.head?.all Char.isDigit && cs.getLast?.all Char.isDigit
    && noDoubleUnd cs

/-- Value of a digit group, ignoring grouping underscores. -/
def uRunVal (cs : List Char) : Nat := digitsToNat (cs.filter (fun c => !(c == '_')))

/-- Number of true digits in a digit group. -/
def uRunDigits (cs : List Char) : Nat := (cs.filter (fun c => !(c == '_'))).length

/-- The optional exponent suffix of a float literal applied to mantissa
`m`; the remaining input must be consumed entirely. -/
def parseExpPart (m : PyRat) (rest : List Char) : Option PyRat :=
  match rest with
  | [] => some m
  | 'e' :: r =>
    let sgnAndRest : Bool × List Char :=
      match r with
      | '+' :: t => (true, t)
      | '-' :: t => (false, t)
      | t => (true, t)
    let eRun := sgnAndRest.2.takeWhile (fun c => c.isDigit || c == '_')
    let rest3 := sgnAndRest.2.drop eRun.length
    if goodURun eRun && rest3.isEmpty then
      let e := uRunVal eRun
      some (if sgnAndRest.1 then m.mul (PyRat.pow10 e) else m.div (PyRat.pow10 e))
    else none
  | _ => none

/-- The unsigned body of a Python float literal:
`[digits] [. [digits]] [exponent]`, with at least one digit before the
exponent; input is already lower-cased. -/
def parseFloatBody (cs : List Char) : Option PyRat :=
  let ipRun := cs.takeWhile (fun c => c.isDigit || c == '_')
  let rest1 := cs.drop ipRun.length
  if !(ipRun.isEmpty || goodURun ipRun) then none
  else
    match rest1 with
    | '.' :: r2 =>
      let fRun := r2.takeWhile (fun c => c.isDigit || c == '_')
      let rest2 := r2.drop fRun.length
      if !(fRun.isEmpty || goodURun fRun) then none
      else if ipRun.isEmpty && fRun.isEmpty then none
      else
        parseExpPart
          ((PyRat.ofNat (uRunVal ipRun)).add
            ((PyRat.ofNat (uRunVal fRun)).div (PyRat.pow10 (uRunDigits fRun))))
          rest2
    | _ =>
      if ipRun.isEmpty then none else parseExpPart (PyRat.ofNat (uRunVal ipRun)) rest1

/-- `float(s)` for strings: strip, optional sign, the words inf / infinity
/ nan (case-insensitively), or a decimal literal; values beyond the double
range saturate to infinity and tiny values round to zero exactly as the
nearest-double conversion would. -/
def pyFloatOfString (s : String) : Option PyFloat :=
  let cs := (pyLower (pyStrip s)).data
  let sgnAndRest : Bool × List Char :=
    match cs with
    | '+' :: t => (true, t)
    | '-' :: t => (false, t)
    | t => (true, t)
  let body := sgnAndRest.2
  if body = "inf".data ∨ body = "infinity".data then some (.inf sgnAndRest.1)
  else if body = "nan".data then some .nan
  else
    match parseFloatBody body with
    | none => none
    | some q =>
      let v : PyRat := if sgnAndRest.1 then q else q.neg
      if (PyRat.ofNat (2 ^ 1024)).le v then some (.inf true)
      else if v.le (PyRat.ofNat (2 ^ 1024)).neg then some (.inf false)
      else if v.isZero = false ∧ v.abs.le ⟨1, 2 ^ 1075⟩ = true then some (.val ⟨0, 1⟩)
      else some (.val v)

/-- Spreadsheet-serial fallback of `parse_date`:
`pd.to_datetime(float(s), unit="D", origin="1899-12-30").date()`.
1899-12-30 is day −25569; the result must fit in the nanosecond `int64`
of a pandas `Timestamp`, and `.date()` floors to the calendar day.
Non-finite values (and out-of-range ones) raise inside the `try` of the
source and so yield `none`. -/
def serialParse (s : String) : Option Int :=
  match pyFloatOfString s with
  | some (.val q) =>
    let t : PyRat := q.sub (PyRat.ofNat 25569)
    let ns : PyRat := t.mul (PyRat.ofNat 86400000000000)
    if (PyRat.ofNat 9223372036854775807).neg.le ns = true ∧
        ns.le (PyRat.ofNat 9223372036854775807) = true then
      some t.floor
    else none
  | _ => none

/-- `parse_date` of the source (lines 127-138): falsy values are absent;
typed dates pass through; otherwise try the three text formats and then
the spreadsheet serial; `None` on every failure, never an exception. -/
def parse_date (v : Value) : Option Int :=
  if truthy v then
    match v with
    | .vdate d => some d
    | _ =>
      match tryFormats (pyStrip (str_of v)) with
      | some d => some d
      | none => serialParse (pyStrip (str_of v))
  else none

/-- `to_float` of the source (lines 140-142): `float(str(v).strip())`
with every exception mapped to `None`. -/
def to_float (v : Value) : Option PyFloat := pyFloatOfString (pyStrip (str_of v))

/-- `safe_text` of the source (lines 118-125): `None` and NaN become the
empty string, as does any text whose stripped lower-casing is the literal
"nan" or "none". -/
def safe_text (v : Value) : String :=
  match v with
  | .vnone => ""
  | .vnan => ""
  | _ =>
    let s := str_of v
    if pyLower (pyStrip s) = "nan" ∨ pyLower (pyStrip s) = "none" then "" else s

/-- `yn` of the source (line 144): the tick is yes iff the stripped
upper-cased text is exactly "Y". -/
def yn (v : Value) : Bool := pyUpper (pyStrip (str_of v)) == "Y"

/-- `days_since` of the source (line 145), with the module-level `TODAY`
passed explicitly: days elapsed from `d` to the reference date. -/
def days_since (today : Int) (d : Option Int) : Option Int :=
  match d with
  | none => none
  | some x => some (today - x)

/-- `days_left_since` of the source (lines 146-149): days remaining from
the reference date until `d + interval`. -/
def days_left_since (today : Int) (d : Option Int) (interval : Int) : Option Int :=
  match d with
  | none => none
  | some x => some (x + interval - today)

/-- A record row: a finite map from column name to cell value, with the
`dict.get` access conventions of the source. -/
abbrev Row := List (String × Value)

/-- `row.get(k)`: `None` when the key is absent. -/
def Row.get (r : Row) (k : String) : Value :=
  match r.find? (fun p => p.1 == k) with
  | some p => p.2
  | none => .vnone

/-- `row.get(k, dflt)`. -/
def Row.getD (r : Row) (k : String) (dflt : Value) : Value :=
  match r.find? (fun p => p.1 == k) with
  | some p => p.2
  | none => dflt

/-- The normalized tick of a yes/no field:
`str(row.get(field, "")).strip().upper()` (source lines 155 and 210). -/
def tickOf (row : Row) (field : String) : String :=
  pyUpper (pyStrip (str_of (row.getD field (.vstr ""))))

/-- The fixed column schema `CHECK_COLUMNS` (source lines 80-91). -/
def CHECK_COLUMNS : List String := [
  "Crane #", "Vessel Name", "IMO", "Crane Make/Model", "Serial Number", "SWL (t)",
  "Install/Commission Date", "Last 5-year Proof Test Date", "Last Annual Thorough Exam Date",
  "Annual Exam By (Competent/Responsible Person)", "Certificate of Test # (AMSA 365/642/etc)",
  "Certificate Current? (Y/N)", "Register of MHE Onboard? (Y/N)", "Pre-use Visual Exam OK? (Y/N)",
  "Rigging Plan/Drawings Onboard? (Y/N)", "Controls layout labelled & accessible? (Y/N)",
  "Limit switches operational? (Y/N)", "Brakes operational? (Y/N)", "Operator visibility adequate? (Y/N)",
  "Visibility: Shift (Day/Evening/Night)", "Visibility: Weather conditions",
  "Weather protection at winch/controls? (Y/N)", "Access/escape to cabin compliant? (Y/N)", "Notes / Defects",
  "Loose Gear: Hook/Block Serial Number", "Loose Gear: Hook SWL (t)", "Loose Gear: Certificate Number",
  "Loose Gear: Last Inspection/Proof Date", "Loose Gear: Notes"]

/-- The ten mandatory yes/no fields with their regulatory references, in
the fixed order of the `evaluate_row` loop (source lines 198-209). -/
def MANDATORY_FIELDS : List (String × String) := [
  ("Certificate Current? (Y/N)", "s.23"),
  ("Register of MHE Onboard? (Y/N)", "s.25"),
  ("Pre-use Visual Exam OK? (Y/N)", "s.22(2)(c)"),
  ("Rigging Plan/Drawings Onboard? (Y/N)", "Sch.6 Div.2 cl.1"),
  ("Limit switches operational? (Y/N)", "Sch.3 cl.4(3)"),
  ("Brakes operational? (Y/N)", "Sch.6 Div.3"),
  ("Controls layout labelled & accessible? (Y/N)", "Sch.6 Div.3"),
  ("Operator visibility adequate? (Y/N)", "Sch.6 vis."),
  ("Weather protection at winch/controls? (Y/N)", "Sch.6 cl.19"),
  ("Access/escape to cabin compliant? (Y/N)", "Sch.6 access")]

/-- The `RISK_KEYWORDS` table (source lines 105-115), in insertion order. -/
def RISK_KEYWORDS : List (String × List String) := [
  ("Controls layout labelled & accessible? (Y/N)",
    ["sloppy", "sticky", "not labelled", "label missing", "hard to reach", "unresponsive", "stiff"]),
  ("Brakes operational? (Y/N)",
    ["drifts", "creeps", "won\x27t hold", "wont hold", "weak brake", "fade", "brake fade", "slips"]),
  ("Limit switches operational? (Y/N)",
    ["overtravel", "limit not working", "no cutout", "failsafe", "upper limit", "lower limit"]),
  ("Operator visibility adequate? (Y/N)",
    ["blind spot", "obstructed", "poor visibility", "camera not working", "wiper", "dirty screen"]),
  ("Weather protection at winch/controls? (Y/N)",
    ["no canopy", "exposed", "water ingress", "leaks", "rain on controls"]),
  ("Access/escape to cabin compliant? (Y/N)",
    ["ladder loose", "handrail", "blocked", "trip hazard", "missing step"]),
  ("Rigging Plan/Drawings Onboard? (Y/N)",
    ["no plan", "drawing missing", "outdated plan", "no rigging plan"]),
  ("Certificate Current? (Y/N)",
    ["expired", "out of date", "no certificate", "missing cert"]),
  ("Register of MHE Onboard? (Y/N)",
    ["no register", "not onboard", "out of date", "not updated"])]

/-- The `WEATHER_BAD` adjective list (source line 116). -/
def WEATHER_BAD : List String :=
  ["rain", "raining", "storm", "storming", "hail", "fog", "mist", "spray",
   "squall", "gust", "windy", "dust", "smoke", "night", "dark", "low light", "glare"]

/-- The workaround phrases of the `tick = N` contradiction branch
(source line 160). -/
def WORKAROUND_WORDS : List String :=
  ["ok now", "temporary fix", "workaround", "still usable"]

/-- Hard-issue text of the 5-year proof-test rule (source line 186). -/
def msg5yr : String := "Overdue/missing 5-year proof test (MO32 Sch.3 2(2)(a))."

/-- Due-soon text of the 5-year proof-test rule (source line 190). -/
def dueMsg5 (n : Int) : String :=
  ("5-year proof test due in ") ++ (toString n ++ (" days."))

/-- Hard-issue text of the annual thorough-exam rule (source line 193). -/
def msgAnnual : String := "Overdue/missing annual thorough exam (MO32 Sch.3 2(2)(b), 2(5))."

/-- Due-soon text of the annual thorough-exam rule (source line 197). -/
def dueMsgAnnual (n : Int) : String :=
  ("Annual thorough exam due in ") ++ (toString n ++ (" days."))

/-- Hard-issue text of the loose-gear inspection rule (source line 227). -/
def msgLoose : String := "Loose gear last inspection/proof >12 months or missing - not compliant."

/-- Due-soon text of the loose-gear inspection rule (source line 231). -/
def dueMsgLoose (n : Int) : String :=
  ("Loose gear inspection due in ") ++ (toString n ++ (" days."))

/-- Attention text for an unanswered mandatory field (source line 212). -/
def notAnsweredMsg (field : String) : String :=
  field ++ (" not answered (tick Y or N).")

/-- Hard-issue text for a mandatory field ticked N (source line 214). -/
def nokMsg (field ref : String) : String :=
  (pyReplace field " (Y/N)" "") ++ ((": NOT OK (MO32 ") ++ (ref ++ (").")))

/-- Attention text for a blank shift selector (source line 218). -/
def shiftMsg : String := "Shift/Lighting not selected (Day/Evening/Night)."

/-- Attention text for a blank weather box (source line 220). -/
def weatherMsg : String := "Weather conditions box is empty (e.g., Raining / Clear / Fog)."

/-- Decimal rendering of an exact rational with terminating decimal
expansion, in the style of `str(float)` on such values (always at least
one fractional digit, trailing zeros removed). -/
def ratDecimalStr (q : PyRat) : String :=
  let sgn := if q.num < 0 then "-" else ""
  let n := q.num.natAbs
  let d := q.den
  let k := ((List.range 400).find? fun k => d ∣ 10 ^ k).getD 0
  let scaled := n * 10 ^ k / d
  let ip := scaled / 10 ^ k
  let fp := scaled % 10 ^ k
  let fdigits := ⟨(natPad k fp).data.reverse.dropWhile (fun c => c == '0') |>.reverse⟩
  sgn ++ toString ip ++ "." ++ (if String.isEmpty fdigits then "0" else fdigits)

/-- `str(float)` for the modelled Python floats. -/
def pyFloatStr : PyFloat → String
  | .nan => "nan"
  | .inf true => "inf"
  | .inf false => "-inf"
  | .val q => ratDecimalStr q

/-- Hard-issue text of the SWL mismatch rule (source line 224); the hook
SWL is named first, the crane SWL second. -/
def swlMsg (hook crane : PyFloat) : String :=
  ("Loose gear SWL (") ++
    (pyFloatStr hook ++ ((" t) exceeds crane SWL (") ++
      (pyFloatStr crane ++ (" t) - mismatch."))))

/-- Attention text of the loose-gear certificate check in the main
evaluator (source line 233). -/
def lgCertMsg : String :=
  "Loose gear certificate number blank while main cert is current - add accessory cert ref."

/-- Contradiction text for a field ticked Y whose notes mention risk
keywords (source line 159); `hits` are the up-to-three matches. -/
def contradictionYMsg (field : String) (hits : List String) : String :=
  field ++ ((": Y but notes mention ") ++ String.intercalate ", " hits)

/-- Contradiction text for a field ticked N whose notes imply a
workaround (source line 161). -/
def contradictionNMsg (field : String) : String :=
  field ++ (": N but notes imply workaround/operation")

/-- The low-visibility contradiction text (source line 165). -/
def visMsg : String :=
  "Visibility = Y but conditions indicate low visibility (night/adverse weather)."

/-- The first evidence prompt (source line 171). -/
def promptCertNo : String :=
  "Certificate marked current but certificate number is blank - add ID/photo."

/-- The second evidence prompt (source line 173). -/
def promptRegister : String :=
  "Register marked onboard - add last entry details/competent or responsible person."

/-- The third evidence prompt (source line 177). -/
def promptPlan : String :=
  "Rigging plan onboard - add drawing ID/revision/date in notes."

/-- The fourth evidence prompt (source line 179). -/
def promptLooseCert : String :=
  "Main certificate current but loose gear cert # blank - add accessory cert reference."

/-- The lower-cased combined notes blob of `contradiction_notes_check`
(source line 152): notes, loose-gear notes and weather text joined by
single spaces. -/
def notesBlob (row : Row) : String :=
  pyLower (safe_text (row.get "Notes / Defects") ++ (" ") ++
    (safe_text (row.get "Loose Gear: Notes") ++ ((" ") ++
      safe_text (row.get "Visibility: Weather conditions"))))

/-- The finding contributed by one `RISK_KEYWORDS` entry (source lines
154-161): skipped when the blob is empty or the tick is not a strict Y/N;
a Y tick with a matching risk keyword names the first three matches; an N
tick with a workaround phrase flags continued use. -/
def riskFinding (row : Row) (p : String × List String) : Option String :=
  let notes := notesBlob row
  let tick := tickOf row p.1
  if notes = "" ∨ (tick ≠ "Y" ∧ tick ≠ "N") then none
  else if tick = "Y" ∧ p.2.any (fun w => containsSub notes w) then
    some (contradictionYMsg p.1 ((p.2.filter (fun w => containsSub notes w)).take 3))
  else if tick = "N" ∧ WORKAROUND_WORDS.any (fun w => containsSub notes w) then
    some (contradictionNMsg p.1)
  else none

/-- `contradiction_notes_check` of the source (lines 151-166): one pass
over the keyword table, then the visibility-context rule (low shift is
the unstripped lower-cased shift text, compared against "night"). -/
def contradiction_notes_check (row : Row) : List String :=
  RISK_KEYWORDS.filterMap (riskFinding row) ++
    (if tickOf row "Operator visibility adequate? (Y/N)" = "Y" ∧
        (pyLower (safe_text (row.get "Visibility: Shift (Day/Evening/Night)")) = "night" ∨
          WEATHER_BAD.any (fun w => containsSub (notesBlob row) w)) then
      [visMsg]
    else [])

/-- `evidence_prompts` of the source (lines 168-180): the four evidence
completeness rules, in order. -/
def evidence_prompts (row : Row) : List String :=
  (if yn (row.get "Certificate Current? (Y/N)") = true ∧
      pyStrip (safe_text (row.get "Certificate of Test # (AMSA 365/642/etc)")) = "" then
    [promptCertNo] else []) ++
  ((if yn (row.get "Register of MHE Onboard? (Y/N)") = true ∧
      pyStrip (safe_text (row.get "Annual Exam By (Competent/Responsible Person)")) = "" then
    [promptRegister] else []) ++
  ((if yn (row.get "Rigging Plan/Drawings Onboard? (Y/N)") = true ∧
      containsSub (pyLower (safe_text (row.get "Notes / Defects"))) "plan" = true ∧
      containsSub (pyLower (safe_text (row.get "Notes / Defects"))) "rev" = false then
    [promptPlan] else []) ++
  (if yn (row.get "Certificate Current? (Y/N)") = true ∧
      pyStrip (safe_text (row.get "Loose Gear: Certificate Number")) = "" then
    [promptLooseCert] else [])))

/-- The 5-year proof-test rule of `evaluate_row` (source lines 184-190):
`(issues, due_soon)` contributions.  An absent date or more than
`5 * 365` elapsed days is overdue; otherwise at most 90 days left until
`date + 5 * 365` is due soon (`days_since d = today - d`,
`days_left_since d i = d + i - today`). -/
def proofTestItems (today : Int) (row : Row) : List String × List String :=
  match parse_date (row.get "Last 5-year Proof Test Date") with
  | none => ([msg5yr], [])
  | some d =>
    if today - d > 5 * 365 then ([msg5yr], [])
    else if d + 5 * 365 - today ≤ 90 then ([], [dueMsg5 (d + 5 * 365 - today)])
    else ([], [])

/-- The annual thorough-exam rule (source lines 191-197): overdue past
`365 + 31` elapsed days; due soon at 30 or fewer days left until
`date + 365`. -/
def annualExamItems (today : Int) (row : Row) : List String × List String :=
  match parse_date (row.get "Last Annual Thorough Exam Date") with
  | none => ([msgAnnual], [])
  | some d =>
    if today - d > 365 + 31 then ([msgAnnual], [])
    else if d + 365 - today ≤ 30 then ([], [dueMsgAnnual (d + 365 - today)])
    else ([], [])

/-- The loose-gear inspection rule (source lines 225-231): overdue past
365 elapsed days; due soon at 30 or fewer days left until `date + 365`. -/
def looseGearItems (today : Int) (row : Row) : List String × List String :=
  match parse_date (row.get "Loose Gear: Last Inspection/Proof Date") with
  | none => ([msgLoose], [])
  | some d =>
    if today - d > 365 then ([msgLoose], [])
    else if d + 365 - today ≤ 30 then ([], [dueMsgLoose (d + 365 - today)])
    else ([], [])

/-- The hard issues of the mandatory-field loop (source lines 198-214),
in table order: a strict N tick is NOT OK against its reference. -/
def mandatoryIssueItems (row : Row) : List String :=
  MANDATORY_FIELDS.filterMap fun p =>
    let tick := tickOf row p.1
    if tick ≠ "Y" ∧ tick ≠ "N" then none
    else if tick ≠ "Y" then some (nokMsg p.1 p.2)
    else none

/-- The attention items of the mandatory-field loop (source lines
198-212), in table order: anything other than a strict Y or N tick is
unanswered. -/
def mandatoryAttentionItems (row : Row) : List String :=
  MANDATORY_FIELDS.filterMap fun p =>
    let tick := tickOf row p.1
    if tick ≠ "Y" ∧ tick ≠ "N" then some (notAnsweredMsg p.1)
    else none

/-- The shift / weather box checks (source lines 215-220). -/
def visContextItems (row : Row) : List String :=
  (if pyStrip (safe_text (row.get "Visibility: Shift (Day/Evening/Night)")) = "" then
    [shiftMsg] else []) ++
  (if pyStrip (safe_text (row.get "Visibility: Weather conditions")) = "" then
    [weatherMsg] else [])

/-- The SWL mismatch check (source lines 221-224): a hard issue when both
SWL fields parse and the hook SWL strictly exceeds the crane SWL. -/
def swlItems (row : Row) : List String :=
  match to_float (row.get "Loose Gear: Hook SWL (t)"),
      to_float (row.get "SWL (t)") with
  | some hook, some crane =>
    if PyFloat.gt hook crane then [swlMsg hook crane] else []
  | _, _ => []

/-- The loose-gear certificate check of the main evaluator (source lines
232-233). -/
def lgCertItems (row : Row) : List String :=
  if yn (row.get "Certificate Current? (Y/N)") = true ∧
      pyStrip (safe_text (row.get "Loose Gear: Certificate Number")) = "" then
    [lgCertMsg]
  else []

/-- The status aggregation of `evaluate_row` (source lines 240-244). -/
def aggStatus (issues attention due_soon : List String) : String :=
  if issues.isEmpty = false then "FAIL"
  else if attention.isEmpty = false ∨ due_soon.isEmpty = false then "ATTENTION"
  else "PASS"

/-- The result of one per-record evaluation. -/
structure EvalResult where
  status : String
  issues : List String
  attention : List String
  due_soon : List String
deriving DecidableEq

/-- `evaluate_row` of the source (lines 182-245), with the module-level
reference date passed explicitly.  The three lists collect, in the
source's append order: the interval issues, the mandatory-table items,
the SWL and loose-gear issues, the context boxes, the loose-gear
certificate check, the contradictions (each prefixed
"Notes contradict ticks: ") and the evidence prompts; the status comes
last from the three lists. -/
def evaluate_row (today : Int) (row : Row) : EvalResult :=
  let p5 := proofTestItems today row
  let p12 := annualExamItems today row
  let lg := looseGearItems today row
  let issues := p5.1 ++ (p12.1 ++ (mandatoryIssueItems row ++ (swlItems row ++ lg.1)))
  let attention := mandatoryAttentionItems row ++ (visContextItems row ++
    (lgCertItems row ++
      ((contradiction_notes_check row).map (fun c => ("Notes contradict ticks: ") ++ c) ++
        evidence_prompts row)))
  let due_soon := p5.2 ++ (p12.2 ++ lg.2)
  ⟨aggStatus issues attention due_soon, issues, attention, due_soon⟩

/-- A batch of records with its structural column set (`df.columns`). -/
structure Batch where
  cols : List String
  rows : List Row

/-- One summary row of the tabular output of `evaluate` (source lines
254-268): echoed identity fields plus status and the semicolon-joined
lists. -/
structure OutRow where
  craneNo : Value
  vesselName : Value
  imo : Value
  serialNumber : Value
  swl : Value
  shift : Value
  weather : Value
  looseGearSerial : Value
  looseGearSwl : Value
  status : String
  issuesStr : String
  attentionStr : String
  dueSoonStr : String
deriving DecidableEq

/-- Python `"; ".join(l) if l else ""`. -/
def joinOrEmpty (l : List String) : String :=
  if l.isEmpty then "" else String.intercalate "; " l

/-- The per-record summary row built by `evaluate` (source lines 253-268). -/
def outRowOf (today : Int) (row : Row) : OutRow :=
  let res := evaluate_row today row
  { craneNo := row.get "Crane #"
    vesselName := row.get "Vessel Name"
    imo := row.get "IMO"
    serialNumber := row.get "Serial Number"
    swl := row.get "SWL (t)"
    shift := row.get "Visibility: Shift (Day/Evening/Night)"
    weather := row.get "Visibility: Weather conditions"
    looseGearSerial := row.get "Loose Gear: Hook/Block Serial Number"
    looseGearSwl := row.get "Loose Gear: Hook SWL (t)"
    status := res.status
    issuesStr := joinOrEmpty res.issues
    attentionStr := joinOrEmpty res.attention
    dueSoonStr := joinOrEmpty res.due_soon }

/-- `evaluate` of the source (lines 247-269): reject the batch with a
single configuration error naming every structurally missing column, or
produce one summary row per record in input order. -/
def evaluate (today : Int) (df : Batch) : Except String (List OutRow) :=
  let missing := CHECK_COLUMNS.filter fun c => !(df.cols.contains c)
  if missing.isEmpty then .ok (df.rows.map (outRowOf today))
  else .error (("Form columns missing: ") ++ String.intercalate ", " missing)

/-! ### Helper lemmas -/

/-- A string with a known head cannot equal a string whose first
characters differ: comparing the leading characters refutes it. -/
theorem ne_of_startA (p x m : String)
    (h : m.data.take p.data.length ≠ p.data) : p ++ x ≠ m := by
  intro he
  apply h
  rw [← he]
  show ((p ++ x).data).take p.data.length = p.data
  have hd : (p ++ x).data = p.data ++ x.data := rfl
  rw [hd]
  exact List.take_left _ _

/-- The three-way reading of the status aggregation. -/
theorem aggStatus_spec (i a d : List String) :
    (aggStatus i a d = "FAIL" ↔ i ≠ []) ∧
    (aggStatus i a d = "ATTENTION" ↔ (i = [] ∧ (a ≠ [] ∨ d ≠ []))) ∧
    (aggStatus i a d = "PASS" ↔ (i = [] ∧ a = [] ∧ d = [])) := by
  rcases i with _ | ⟨x, i⟩ <;> rcases a with _ | ⟨y, a⟩ <;> rcases d with _ | ⟨z, d⟩ <;>
    simp [aggStatus]

/-- The status field of a result is the aggregation of its lists. -/
theorem evaluate_row_status (today : Int) (row : Row) :
    (evaluate_row today row).status =
      aggStatus (evaluate_row today row).issues (evaluate_row today row).attention
        (evaluate_row today row).due_soon := rfl

/-- Decomposition of the issues list into the source's append order. -/
theorem evaluate_row_issues (today : Int) (row : Row) :
    (evaluate_row today row).issues =
      (proofTestItems today row).1 ++ ((annualExamItems today row).1 ++
        (mandatoryIssueItems row ++ (swlItems row ++ (looseGearItems today row).1))) := rfl

/-- Decomposition of the attention list into the source's append order. -/
theorem evaluate_row_attention (today : Int) (row : Row) :
    (evaluate_row today row).attention =
      mandatoryAttentionItems row ++ (visContextItems row ++
        (lgCertItems row ++
          ((contradiction_notes_check row).map (fun c => ("Notes contradict ticks: ") ++ c) ++
            evidence_prompts row))) := rfl

/-- Decomposition of the due-soon list into the source's append order. -/
theorem evaluate_row_due (today : Int) (row : Row) :
    (evaluate_row today row).due_soon =
      (proofTestItems today row).2 ++ ((annualExamItems today row).2 ++
        (looseGearItems today row).2) := rfl

/-- A record with any attention item cannot be PASS. -/
theorem status_ne_pass_of_mem_attention (today : Int) (row : Row) (s : String)
    (h : s ∈ (evaluate_row today row).attention) :
    (evaluate_row today row).status ≠ "PASS" := by
  rw [evaluate_row_status]
  intro hp
  have ha := ((aggStatus_spec _ _ _).2.2.mp hp).2.1
  rw [ha] at h
  exact absurd h (List.not_mem_nil s)

/-! ### Claims -/

/-- Claim C1: the evaluation status is FAIL iff the issues list is
non-empty, otherwise ATTENTION iff the attention or due-soon list is
non-empty, otherwise PASS; a single issue forces FAIL regardless of the
other lists. -/
theorem status_aggregation (today : Int) (row : Row) :
    ((evaluate_row today row).status = "FAIL" ↔ (evaluate_row today row).issues ≠ []) ∧
    ((evaluate_row today row).status = "ATTENTION" ↔
      ((evaluate_row today row).issues = [] ∧
        ((evaluate_row today row).attention ≠ [] ∨ (evaluate_row today row).due_soon ≠ []))) ∧
    ((evaluate_row today row).status = "PASS" ↔
      ((evaluate_row today row).issues = [] ∧ (evaluate_row today row).attention = [] ∧
        (evaluate_row today row).due_soon = [])) :=
  aggStatus_spec _ _ _

/-- Claim C6: per-record evaluation is a pure, deterministic function of
the record and the single injected reference date; the same record and
the same reference date give identical results, and all date arithmetic
(`days_since`, `days_left_since`) is a function of that same explicit
reference date. -/
theorem evaluation_deterministic (today : Int) (row : Row) :
    evaluate_row today row = evaluate_row today row ∧
    (∀ t2 r2, today = t2 → row = r2 → evaluate_row today row = evaluate_row t2 r2) ∧
    (∀ d, days_since today (some d) = some (today - d)) ∧
    (∀ d i, days_left_since today (some d) i = some (d + i - today)) := by
  refine ⟨rfl, ?_, fun d => rfl, fun d i => rfl⟩
  rintro t2 r2 rfl rfl
  rfl

/-- Witness for C6 at a concrete record and date. -/
theorem evaluation_deterministic_witness :
    evaluate_row 20373 [] = evaluate_row 20373 [] :=
  (evaluation_deterministic 20373 []).1

/-- Claim C5: batch evaluation errors exactly when some required column
is structurally absent, with a single configuration error naming every
missing column; otherwise it returns one summary row per record, in input
order, whatever the cell values are. -/
theorem evaluate_schema (today : Int) (df : Batch) :
    (CHECK_COLUMNS.filter (fun c => !(df.cols.contains c)) = [] →
      evaluate today df = .ok (df.rows.map (outRowOf today))) ∧
    (CHECK_COLUMNS.filter (fun c => !(df.cols.contains c)) ≠ [] →
      evaluate today df = .error (("Form columns missing: ") ++
        String.intercalate ", " (CHECK_COLUMNS.filter (fun c => !(df.cols.contains c))))) ∧
    (∀ out, evaluate today df = .ok out → out.length = df.rows.length ∧
      ∀ i : Nat, out[i]? = (df.rows[i]?).map (outRowOf today)) := by
  refine ⟨?_, ?_, ?_⟩
  · intro h
    simp only [evaluate]
    rw [if_pos (List.isEmpty_iff.mpr h)]
  · intro h
    simp only [evaluate]
    rw [if_neg (fun hh => h (List.isEmpty_iff.mp hh))]
  · intro out hout
    by_cases h : CHECK_COLUMNS.filter (fun c => !(df.cols.contains c)) = []
    · simp only [evaluate] at hout
      rw [if_pos (List.isEmpty_iff.mpr h)] at hout
      cases hout
      constructor
      · exact List.length_map _ _
      · intro i
        exact List.getElem?_map _ _ _
    · simp only [evaluate] at hout
      rw [if_neg (fun hh => h (List.isEmpty_iff.mp hh))] at hout
      cases hout

/-- A batch missing all but one of the required columns. -/
def missingBatch : Batch := ⟨["Crane #"], [[]]⟩

/-- Witness for C5: the one-column batch is rejected with the
configuration error naming the 28 missing columns. -/
theorem evaluate_schema_witness :
    evaluate 20373 missingBatch = .error (("Form columns missing: ") ++
      String.intercalate ", "
        (CHECK_COLUMNS.filter (fun c => !(missingBatch.cols.contains c)))) :=
  (evaluate_schema 20373 missingBatch).2.1 (by decide)

/-- Claim C10: a record whose shift field normalizes to blank gets the
shift attention item, a record whose weather field normalizes to blank
gets the weather attention item, and in either case the status cannot be
PASS. -/
theorem blank_context_attention (today : Int) (row : Row) :
    (pyStrip (safe_text (row.get "Visibility: Shift (Day/Evening/Night)")) = "" →
      shiftMsg ∈ (evaluate_row today row).attention ∧
        (evaluate_row today row).status ≠ "PASS") ∧
    (pyStrip (safe_text (row.get "Visibility: Weather conditions")) = "" →
      weatherMsg ∈ (evaluate_row today row).attention ∧
        (evaluate_row today row).status ≠ "PASS") := by
  constructor
  · intro h
    have hmem : shiftMsg ∈ (evaluate_row today row).attention := by
      rw [evaluate_row_attention]
      simp [visContextItems, h, List.mem_append]
    exact ⟨hmem, status_ne_pass_of_mem_attention today row shiftMsg hmem⟩
  · intro h
    have hmem : weatherMsg ∈ (evaluate_row today row).attention := by
      rw [evaluate_row_attention]
      simp [visContextItems, h, List.mem_append]
    exact ⟨hmem, status_ne_pass_of_mem_attention today row weatherMsg hmem⟩

/-- Witness for C10: the empty record has blank shift and weather, gets
both attention items, and is not PASS. -/
theorem blank_context_attention_witness :
    (shiftMsg ∈ (evaluate_row 20373 []).attention ∧
      (evaluate_row 20373 []).status ≠ "PASS") ∧
    (weatherMsg ∈ (evaluate_row 20373 []).attention ∧
      (evaluate_row 20373 []).status ≠ "PASS") :=
  ⟨(blank_context_attention 20373 []).1 (by decide),
    (blank_context_attention 20373 []).2 (by decide)⟩

/-- Claim C9: a record with the main certificate ticked current and a
blank loose-gear certificate number receives both attention entries for
the condition — the loose-gear check of the main evaluator and the
evidence-completeness prompt — and they are distinct entries. -/
theorem loose_gear_cert_duplicate (today : Int) (row : Row)
    (h1 : yn (row.get "Certificate Current? (Y/N)") = true)
    (h2 : pyStrip (safe_text (row.get "Loose Gear: Certificate Number")) = "") :
    lgCertMsg ∈ (evaluate_row today row).attention ∧
    promptLooseCert ∈ (evaluate_row today row).attention ∧
    lgCertMsg ≠ promptLooseCert := by
  refine ⟨?_, ?_, by decide⟩
  · rw [evaluate_row_attention]
    simp [lgCertItems, h1, h2, List.mem_append]
  · rw [evaluate_row_attention]
    simp [evidence_prompts, h1, h2, List.mem_append]

/-- A record with the certificate ticked current and nothing else. -/
def c9row : Row := [("Certificate Current? (Y/N)", .vstr "Y")]

/-- Witness for C9 at a concrete record. -/
theorem loose_gear_cert_duplicate_witness :
    lgCertMsg ∈ (evaluate_row 20373 c9row).attention ∧
    promptLooseCert ∈ (evaluate_row 20373 c9row).attention ∧
    lgCertMsg ≠ promptLooseCert :=
  loose_gear_cert_duplicate 20373 c9row (by decide) (by decide)

/-! ### Segment emptiness lemmas -/

/-- The 5-year rule contributes nothing on a compliant, not-due-soon date. -/
theorem proofTestItems_ok (today : Int) (row : Row) (d : Int)
    (hp : parse_date (row.get "Last 5-year Proof Test Date") = some d)
    (h1 : ¬(today - d > 5 * 365)) (h2 : ¬(d + 5 * 365 - today ≤ 90)) :
    proofTestItems today row = ([], []) := by
  simp only [proofTestItems, hp]
  rw [if_neg h1, if_neg h2]

/-- The annual rule contributes nothing on a compliant, not-due-soon date. -/
theorem annualExamItems_ok (today : Int) (row : Row) (d : Int)
    (hp : parse_date (row.get "Last Annual Thorough Exam Date") = some d)
    (h1 : ¬(today - d > 365 + 31)) (h2 : ¬(d + 365 - today ≤ 30)) :
    annualExamItems today row = ([], []) := by
  simp only [annualExamItems, hp]
  rw [if_neg h1, if_neg h2]

/-- The loose-gear rule contributes nothing on a compliant date. -/
theorem looseGearItems_ok (today : Int) (row : Row) (d : Int)
    (hp : parse_date (row.get "Loose Gear: Last Inspection/Proof Date") = some d)
    (h1 : ¬(today - d > 365)) (h2 : ¬(d + 365 - today ≤ 30)) :
    looseGearItems today row = ([], []) := by
  simp only [looseGearItems, hp]
  rw [if_neg h1, if_neg h2]

/-- All-Y mandatory fields contribute no issues. -/
theorem mandatoryIssueItems_empty (row : Row)
    (h : ∀ p ∈ MANDATORY_FIELDS, tickOf row p.1 = "Y") :
    mandatoryIssueItems row = [] := by
  unfold mandatoryIssueItems
  rw [List.filterMap_eq_nil_iff]
  intro p hp
  simp [h p hp]

/-- Strictly answered mandatory fields contribute no attention items. -/
theorem mandatoryAttentionItems_empty (row : Row)
    (h : ∀ p ∈ MANDATORY_FIELDS, tickOf row p.1 = "Y" ∨ tickOf row p.1 = "N") :
    mandatoryAttentionItems row = [] := by
  unfold mandatoryAttentionItems
  rw [List.filterMap_eq_nil_iff]
  intro p hp
  rcases h p hp with h1 | h1 <;> simp [h1]

/-- Consistent (or unparsed) SWL fields contribute no issue. -/
theorem swlItems_empty (row : Row)
    (h : ∀ a b, to_float (row.get "Loose Gear: Hook SWL (t)") = some a →
      to_float (row.get "SWL (t)") = some b → PyFloat.gt a b = false) :
    swlItems row = [] := by
  cases ha : to_float (row.get "Loose Gear: Hook SWL (t)") with
  | none => simp [swlItems, ha]
  | some a =>
    cases hb : to_float (row.get "SWL (t)") with
    | none => simp [swlItems, ha, hb]
    | some b => simp [swlItems, ha, hb, h a b ha hb]

/-- Claim C2 (amended): a record with every mandatory field ticked Y,
all three tracked dates (5-year proof test, annual exam, loose-gear
inspection) parsed, within interval and not due-soon, non-blank shift and
weather boxes, consistent SWL fields, no contradiction findings, no
evidence prompts, and a loose-gear certificate present whenever the main
certificate is ticked current, evaluates to PASS with all three lists
empty. -/
theorem pass_conditions (today : Int) (row : Row)
    (hm : ∀ p ∈ MANDATORY_FIELDS, tickOf row p.1 = "Y")
    (h5 : ∃ d, parse_date (row.get "Last 5-year Proof Test Date") = some d ∧
      today - d ≤ 5 * 365 ∧ 90 < d + 5 * 365 - today)
    (h12 : ∃ d, parse_date (row.get "Last Annual Thorough Exam Date") = some d ∧
      today - d ≤ 365 + 31 ∧ 30 < d + 365 - today)
    (hlg : ∃ d, parse_date (row.get "Loose Gear: Last Inspection/Proof Date") = some d ∧
      today - d ≤ 365 ∧ 30 < d + 365 - today)
    (hshift : pyStrip (safe_text (row.get "Visibility: Shift (Day/Evening/Night)")) ≠ "")
    (hweather : pyStrip (safe_text (row.get "Visibility: Weather conditions")) ≠ "")
    (hswl : ∀ a b, to_float (row.get "Loose Gear: Hook SWL (t)") = some a →
      to_float (row.get "SWL (t)") = some b → PyFloat.gt a b = false)
    (hcontra : contradiction_notes_check row = [])
    (hprompts : evidence_prompts row = [])
    (hlgcert : yn (row.get "Certificate Current? (Y/N)") = false ∨
      pyStrip (safe_text (row.get "Loose Gear: Certificate Number")) ≠ "") :
    (evaluate_row today row).status = "PASS" ∧ (evaluate_row today row).issues = [] ∧
    (evaluate_row today row).attention = [] ∧ (evaluate_row today row).due_soon = [] := by
  obtain ⟨d5, hp5, h5a, h5b⟩ := h5
  obtain ⟨d12, hp12, h12a, h12b⟩ := h12
  obtain ⟨dlg, hplg, hlga, hlgb⟩ := hlg
  have e5 := proofTestItems_ok today row d5 hp5 (by omega) (by omega)
  have e12 := annualExamItems_ok today row d12 hp12 (by omega) (by omega)
  have elg := looseGearItems_ok today row dlg hplg (by omega) (by omega)
  have emi := mandatoryIssueItems_empty row hm
  have ema := mandatoryAttentionItems_empty row (fun p hp => Or.inl (hm p hp))
  have evi : visContextItems row = [] := by simp [visContextItems, hshift, hweather]
  have esw := swlItems_empty row hswl
  have elc : lgCertItems row = [] := by
    rcases hlgcert with h | h
    · simp [lgCertItems, h]
    · simp [lgCertItems, h]
  have hissues : (evaluate_row today row).issues = [] := by
    rw [evaluate_row_issues, e5, e12, elg, emi, esw]
    rfl
  have hatt : (evaluate_row today row).attention = [] := by
    rw [evaluate_row_attention, ema, evi, elc, hcontra, hprompts]
    rfl
  have hdue : (evaluate_row today row).due_soon = [] := by
    rw [evaluate_row_due, e5, e12, elg]
    rfl
  refine ⟨?_, hissues, hatt, hdue⟩
  rw [evaluate_row_status, hissues, hatt, hdue]
  rfl

/-- A record satisfying every hypothesis of claim C2 as stated (all ten
mandatory fields ticked Y, the 5-year and annual dates compliant and not
due soon, no contradictions, SWL fields consistent) whose loose-gear
inspection date is simply blank. -/
def c2cex : Row := [
  ("Certificate Current? (Y/N)", .vstr "Y"), ("Register of MHE Onboard? (Y/N)", .vstr "Y"),
  ("Pre-use Visual Exam OK? (Y/N)", .vstr "Y"), ("Rigging Plan/Drawings Onboard? (Y/N)", .vstr "Y"),
  ("Controls layout labelled & accessible? (Y/N)", .vstr "Y"),
  ("Limit switches operational? (Y/N)", .vstr "Y"), ("Brakes operational? (Y/N)", .vstr "Y"),
  ("Operator visibility adequate? (Y/N)", .vstr "Y"),
  ("Weather protection at winch/controls? (Y/N)", .vstr "Y"),
  ("Access/escape to cabin compliant? (Y/N)", .vstr "Y"),
  ("Last 5-year Proof Test Date", .vstr "01-01-2024"),
  ("Last Annual Thorough Exam Date", .vstr "01-01-2025"),
  ("Loose Gear: Last Inspection/Proof Date", .vstr ""),
  ("Visibility: Shift (Day/Evening/Night)", .vstr "Day"),
  ("Visibility: Weather conditions", .vstr "Clear"),
  ("Certificate of Test # (AMSA 365/642/etc)", .vstr "AMSA365-1"),
  ("Annual Exam By (Competent/Responsible Person)", .vstr "J Smith"),
  ("Loose Gear: Certificate Number", .vstr "LG-1"),
  ("SWL (t)", .vstr "45"), ("Loose Gear: Hook SWL (t)", .vstr "40"),
  ("Notes / Defects", .vstr ""), ("Loose Gear: Notes", .vstr "")]

/-- Counterexample to claim C2 as stated: the record `c2cex` has no
mandatory field ticked N or unanswered, both the 5-year and annual dates
within interval and not due-soon, no contradiction findings, and
consistent SWL fields, yet its status is FAIL (its loose-gear inspection
date is blank, a condition the claim does not mention). -/
theorem pass_conditions_counterexample :
    (∀ p ∈ MANDATORY_FIELDS, tickOf c2cex p.1 = "Y") ∧
    (parse_date (c2cex.get "Last 5-year Proof Test Date") = some (toRataDie 2024 1 1) ∧
      (20240 : Int) - toRataDie 2024 1 1 ≤ 5 * 365 ∧
      (90 : Int) < toRataDie 2024 1 1 + 5 * 365 - 20240) ∧
    (parse_date (c2cex.get "Last Annual Thorough Exam Date") = some (toRataDie 2025 1 1) ∧
      (20240 : Int) - toRataDie 2025 1 1 ≤ 365 + 31 ∧
      (30 : Int) < toRataDie 2025 1 1 + 365 - 20240) ∧
    contradiction_notes_check c2cex = [] ∧
    to_float (c2cex.get "SWL (t)") = some (.val ⟨45, 1⟩) ∧
    to_float (c2cex.get "Loose Gear: Hook SWL (t)") = some (.val ⟨40, 1⟩) ∧
    PyFloat.gt (.val ⟨40, 1⟩) (.val ⟨45, 1⟩) = false ∧
    (evaluate_row 20240 c2cex).status = "FAIL" := by
  decide

/-- A fully compliant record for the amended claim. -/
def c2row : Row := [
  ("Certificate Current? (Y/N)", .vstr "Y"), ("Register of MHE Onboard? (Y/N)", .vstr "Y"),
  ("Pre-use Visual Exam OK? (Y/N)", .vstr "Y"), ("Rigging Plan/Drawings Onboard? (Y/N)", .vstr "Y"),
  ("Controls layout labelled & accessible? (Y/N)", .vstr "Y"),
  ("Limit switches operational? (Y/N)", .vstr "Y"), ("Brakes operational? (Y/N)", .vstr "Y"),
  ("Operator visibility adequate? (Y/N)", .vstr "Y"),
  ("Weather protection at winch/controls? (Y/N)", .vstr "Y"),
  ("Access/escape to cabin compliant? (Y/N)", .vstr "Y"),
  ("Last 5-year Proof Test Date", .vstr "01-01-2024"),
  ("Last Annual Thorough Exam Date", .vstr "01-01-2025"),
  ("Loose Gear: Last Inspection/Proof Date", .vstr "01-01-2025"),
  ("Visibility: Shift (Day/Evening/Night)", .vstr "Day"),
  ("Visibility: Weather conditions", .vstr "Clear"),
  ("Certificate of Test # (AMSA 365/642/etc)", .vstr "AMSA365-1"),
  ("Annual Exam By (Competent/Responsible Person)", .vstr "J Smith"),
  ("Loose Gear: Certificate Number", .vstr "LG-1"),
  ("SWL (t)", .vstr "45"), ("Loose Gear: Hook SWL (t)", .vstr "40"),
  ("Notes / Defects", .vstr ""), ("Loose Gear: Notes", .vstr "")]

/-- Witness for the amended C2 at a concrete compliant record. -/
theorem pass_conditions_witness :
    (evaluate_row 20240 c2row).status = "PASS" ∧ (evaluate_row 20240 c2row).issues = [] ∧
    (evaluate_row 20240 c2row).attention = [] ∧ (evaluate_row 20240 c2row).due_soon = [] :=
  pass_conditions 20240 c2row (by decide)
    ⟨toRataDie 2024 1 1, by refine ⟨?_, ?_, ?_⟩ <;> decide⟩
    ⟨toRataDie 2025 1 1, by refine ⟨?_, ?_, ?_⟩ <;> decide⟩
    ⟨toRataDie 2025 1 1, by refine ⟨?_, ?_, ?_⟩ <;> decide⟩
    (by decide) (by decide)
    (by
      intro a b ha hb
      have h1 : to_float (c2row.get "Loose Gear: Hook SWL (t)") =
          some (PyFloat.val ⟨40, 1⟩) := by decide
      have h2 : to_float (c2row.get "SWL (t)") = some (PyFloat.val ⟨45, 1⟩) := by decide
      rw [h1] at ha
      rw [h2] at hb
      injection ha with ha2
      injection hb with hb2
      subst ha2
      subst hb2
      decide)
    (by decide) (by decide) (by decide)

/-- Claim C8: the field normalizers are total: date parsing yields a
calendar day or `none` — `none` exactly when the value is not an
already-typed date, no accepted text format matches, and the spreadsheet
serial fails; numeric parsing yields a float or `none`; blank/NaN
normalization always yields a string; none of them can fail in any other
way. -/
theorem normalizers_total (v : Value) :
    (parse_date v = none ↔ ((∀ d, v ≠ Value.vdate d) ∧
      tryFormats (pyStrip (str_of v)) = none ∧ serialParse (pyStrip (str_of v)) = none)) ∧
    ((∃ q, to_float v = some q) ∨ to_float v = none) ∧
    (∃ s, safe_text v = s) := by
  refine ⟨?_, ?_, ⟨_, rfl⟩⟩
  · cases v with
    | vnone => exact iff_of_true rfl (And.intro (fun d h => nomatch h) (And.intro (by decide) (by decide)))
    | vnan => exact iff_of_true (by decide) (And.intro (fun d h => nomatch h) (And.intro (by decide) (by decide)))
    | vdate d =>
      refine iff_of_false (by simp [parse_date, truthy]) (fun h => h.1 d rfl)
    | vstr s =>
      by_cases hs : s = ""
      · subst hs
        exact iff_of_true rfl (And.intro (fun d h => nomatch h) (And.intro (by decide) (by decide)))
      · have ht : truthy (Value.vstr s) = true := by simp [truthy, hs]
        have hso : str_of (Value.vstr s) = s := rfl
        cases htf : tryFormats (pyStrip s) with
        | some d =>
          refine iff_of_false ?_ (fun h => by rw [hso] at h; rw [h.2.1] at htf; cases htf)
          simp [parse_date, ht, hso, htf]
        | none =>
          cases hser : serialParse (pyStrip s) with
          | some d =>
            refine iff_of_false ?_ (fun h => by rw [hso] at h; rw [h.2.2] at hser; cases hser)
            simp [parse_date, ht, hso, htf, hser]
          | none =>
            refine iff_of_true ?_ (And.intro (fun d h => nomatch h)
              (And.intro (by rw [hso]; exact htf) (by rw [hso]; exact hser)))
            simp [parse_date, ht, hso, htf, hser]
  · cases h : to_float v with
    | some q => exact Or.inl ⟨q, rfl⟩
    | none => exact Or.inr rfl

/-! ### String-prefix machinery for the contradiction claims -/

/-- Prepending the same list to both sides preserves `isPrefixOf`. -/
theorem isPrefixOf_append_cancel (a b c : List Char) :
    (a ++ b).isPrefixOf (a ++ c) = b.isPrefixOf c := by
  induction a with
  | nil => rfl
  | cons x t ih => simp [List.isPrefixOf, ih]

/-- A Boolean prefix determines the take of the longer list. -/
theorem eq_take_of_isPrefixOf {a b : List Char} (h : a.isPrefixOf b = true) :
    b.take a.length = a := by
  induction a generalizing b with
  | nil => rfl
  | cons x t ih =>
    cases b with
    | nil => exact Bool.noConfusion h
    | cons y s =>
      simp only [List.isPrefixOf, Bool.and_eq_true, beq_iff_eq] at h
      simp [List.take, ih h.2, h.1]

/-- `a` is not a prefix of `f ++ x` when it already disagrees inside `f`. -/
theorem isPrefixOf_append_false (a f x : List Char)
    (hlen : a.length ≤ f.length) (hne : f.take a.length ≠ a) :
    a.isPrefixOf (f ++ x) = false := by
  by_contra h
  rw [Bool.not_eq_false] at h
  have h2 := eq_take_of_isPrefixOf h
  rw [List.take_append_of_le_length hlen] at h2
  exact hne h2

/-- The brakes-field prefix cannot start a message built on a different
field already diverging within its name. -/
theorem brakesColon_not_prefixOf_other (f x : String)
    (hlen : ("Brakes operational? (Y/N):").data.length ≤ f.data.length)
    (hne : f.data.take ("Brakes operational? (Y/N):").data.length ≠
      ("Brakes operational? (Y/N):").data) :
    ("Brakes operational? (Y/N):").data.isPrefixOf ((f ++ x).data) = false := by
  have hd : (f ++ x).data = f.data ++ x.data := rfl
  rw [hd]
  exact isPrefixOf_append_false _ _ _ hlen hne

/-- Testing the long brakes prefix on a wrapped contradiction entry
reduces to testing the brakes-field prefix on the raw entry. -/
theorem startsWith_contra_entry (c : String) :
    strStartsWith (("Notes contradict ticks: ") ++ c)
      ("Notes contradict ticks: Brakes operational? (Y/N):") =
    ("Brakes operational? (Y/N):").data.isPrefixOf c.data := by
  show ("Notes contradict ticks: Brakes operational? (Y/N):").data.isPrefixOf
      ((("Notes contradict ticks: ") ++ c).data) = _
  have h1 : ("Notes contradict ticks: Brakes operational? (Y/N):").data =
      ("Notes contradict ticks: ").data ++ ("Brakes operational? (Y/N):").data := rfl
  have h2 : ((("Notes contradict ticks: ") ++ c).data) =
      ("Notes contradict ticks: ").data ++ c.data := rfl
  rw [h1, h2, isPrefixOf_append_cancel]

/-- A string containing a nonempty needle is nonempty. -/
theorem ne_empty_of_containsSub (b w : String) (hw : w.data ≠ [])
    (h : containsSub b w = true) : b ≠ "" := by
  intro hb
  subst hb
  simp [containsSub, hasSub, List.isEmpty_iff] at h
  exact hw h

/-! ### Shape lemmas for the attention segments -/

/-- Every shift/weather context item is one of the two fixed texts. -/
theorem visContextItems_shape (row : Row) (s : String) (h : s ∈ visContextItems row) :
    s = shiftMsg ∨ s = weatherMsg := by
  unfold visContextItems at h
  rcases List.mem_append.mp h with h | h
  · left
    split at h
    · simpa using h
    · cases h
  · right
    split at h
    · simpa using h
    · cases h

/-- Every loose-gear certificate item is the fixed text. -/
theorem lgCertItems_shape (row : Row) (s : String) (h : s ∈ lgCertItems row) :
    s = lgCertMsg := by
  unfold lgCertItems at h
  split at h
  · simpa using h
  · cases h

/-- Every evidence prompt is one of the four fixed texts. -/
theorem evidence_prompts_shape (row : Row) (s : String) (h : s ∈ evidence_prompts row) :
    s = promptCertNo ∨ s = promptRegister ∨ s = promptPlan ∨ s = promptLooseCert := by
  unfold evidence_prompts at h
  rcases List.mem_append.mp h with h | h
  · left
    split at h
    · simpa using h
    · cases h
  rcases List.mem_append.mp h with h | h
  · right; left
    split at h
    · simpa using h
    · cases h
  rcases List.mem_append.mp h with h | h
  · right; right; left
    split at h
    · simpa using h
    · cases h
  · right; right; right
    split at h
    · simpa using h
    · cases h

/-- Every unanswered-field attention item names a table field whose tick
is neither Y nor N. -/
theorem mandatoryAttentionItems_shape (row : Row) (s : String)
    (h : s ∈ mandatoryAttentionItems row) :
    ∃ p, p ∈ MANDATORY_FIELDS ∧ s = notAnsweredMsg p.1 ∧
      tickOf row p.1 ≠ "Y" ∧ tickOf row p.1 ≠ "N" := by
  simp only [mandatoryAttentionItems] at h
  obtain ⟨p, hp, hpe⟩ := List.mem_filterMap.mp h
  refine ⟨p, hp, ?_⟩
  split at hpe
  · rename_i hc
    injection hpe with hpe
    exact ⟨hpe.symm, hc.1, hc.2⟩
  · cases hpe

/-- Every finding of one keyword entry is the Y or the N message of its
field, under the matching tick. -/
theorem riskFinding_shape (row : Row) (p : String × List String) (c : String)
    (h : riskFinding row p = some c) :
    (tickOf row p.1 = "Y" ∧
      c = contradictionYMsg p.1
        ((p.2.filter (fun w => containsSub (notesBlob row) w)).take 3)) ∨
    (tickOf row p.1 = "N" ∧
      WORKAROUND_WORDS.any (fun w => containsSub (notesBlob row) w) = true ∧
      c = contradictionNMsg p.1) := by
  simp only [riskFinding] at h
  split at h
  · cases h
  · split at h
    · rename_i h2
      injection h with h
      exact Or.inl ⟨h2.1, h.symm⟩
    · split at h
      · rename_i h3
        injection h with h
        exact Or.inr ⟨h3.1, h3.2, h.symm⟩
      · cases h

/-- Every contradiction finding comes from a keyword entry or is the
visibility message. -/
theorem contradiction_shape (row : Row) (c : String)
    (hc : c ∈ contradiction_notes_check row) :
    (∃ p, p ∈ RISK_KEYWORDS ∧ riskFinding row p = some c) ∨ c = visMsg := by
  unfold contradiction_notes_check at hc
  rcases List.mem_append.mp hc with h | h
  · obtain ⟨p, hp, hpf⟩ := List.mem_filterMap.mp h
    exact Or.inl ⟨p, hp, hpf⟩
  · right
    split at h
    · simpa using h
    · cases h

/-- Under an N tick on the brakes field with no workaround phrase, no
contradiction finding starts with the brakes-field prefix. -/
theorem contra_no_brakes (row : Row) (c : String)
    (ht : tickOf row "Brakes operational? (Y/N)" = "N")
    (hw : ∀ w ∈ WORKAROUND_WORDS, containsSub (notesBlob row) w = false)
    (hc : c ∈ contradiction_notes_check row) :
    ("Brakes operational? (Y/N):").data.isPrefixOf c.data = false := by
  rcases contradiction_shape row c hc with ⟨p, hp, hpf⟩ | rfl
  · by_cases hpb : p.1 = "Brakes operational? (Y/N)"
    · rcases riskFinding_shape row p c hpf with ⟨hY, _⟩ | ⟨_, hany, _⟩
      · rw [hpb, ht] at hY
        exact absurd hY (by decide)
      · rw [List.any_eq_true] at hany
        obtain ⟨w, hwmem, hww⟩ := hany
        rw [hw w hwmem] at hww
        cases hww
    · have hfacts : ∀ q ∈ RISK_KEYWORDS, q.1 ≠ "Brakes operational? (Y/N)" →
          ("Brakes operational? (Y/N):").data.length ≤ q.1.data.length ∧
          q.1.data.take ("Brakes operational? (Y/N):").data.length ≠
            ("Brakes operational? (Y/N):").data := by decide
      obtain ⟨hlen, hne⟩ := hfacts p hp hpb
      rcases riskFinding_shape row p c hpf with ⟨_, rfl⟩ | ⟨_, _, rfl⟩
      · exact brakesColon_not_prefixOf_other p.1 _ hlen hne
      · exact brakesColon_not_prefixOf_other p.1 _ hlen hne
  · decide

/-- The finding produced by the brakes entry under a Y tick with
"brake fade" in the blob. -/
theorem brakes_finding (row : Row)
    (ht : tickOf row "Brakes operational? (Y/N)" = "Y")
    (hbf : containsSub (notesBlob row) "brake fade" = true) :
    riskFinding row ("Brakes operational? (Y/N)",
      ["drifts", "creeps", "won\x27t hold", "wont hold", "weak brake", "fade",
        "brake fade", "slips"]) =
    some (contradictionYMsg "Brakes operational? (Y/N)"
      ((["drifts", "creeps", "won\x27t hold", "wont hold", "weak brake", "fade",
          "brake fade", "slips"].filter
        (fun w => containsSub (notesBlob row) w)).take 3)) := by
  have hne : notesBlob row ≠ "" := ne_empty_of_containsSub _ _ (by decide) hbf
  have hany : (["drifts", "creeps", "won\x27t hold", "wont hold", "weak brake", "fade",
      "brake fade", "slips"].any (fun w => containsSub (notesBlob row) w)) = true :=
    List.any_eq_true.mpr ⟨"brake fade", by decide, hbf⟩
  simp [riskFinding, ht, hne, hany]

/-- Claim C7: a record with "Brakes operational?" ticked Y whose combined
lowercase blob contains "brake fade" gets a contradiction attention entry
naming that field and the (up to three) matched keywords; with the field
ticked N and no workaround phrase in the blob, no attention entry for
this field's contradiction is emitted. -/
theorem brake_fade_contradiction (today : Int) (row : Row) :
    (tickOf row "Brakes operational? (Y/N)" = "Y" →
      containsSub (notesBlob row) "brake fade" = true →
      (("Notes contradict ticks: ") ++ contradictionYMsg "Brakes operational? (Y/N)"
        ((["drifts", "creeps", "won\x27t hold", "wont hold", "weak brake", "fade",
            "brake fade", "slips"].filter
          (fun w => containsSub (notesBlob row) w)).take 3)) ∈
        (evaluate_row today row).attention) ∧
    (tickOf row "Brakes operational? (Y/N)" = "N" →
      (∀ w ∈ WORKAROUND_WORDS, containsSub (notesBlob row) w = false) →
      ∀ s ∈ (evaluate_row today row).attention,
        strStartsWith s ("Notes contradict ticks: Brakes operational? (Y/N):") = false) := by
  constructor
  · intro ht hbf
    have hf := brakes_finding row ht hbf
    have hcmem : contradictionYMsg "Brakes operational? (Y/N)"
        ((["drifts", "creeps", "won\x27t hold", "wont hold", "weak brake", "fade",
            "brake fade", "slips"].filter
          (fun w => containsSub (notesBlob row) w)).take 3) ∈
        contradiction_notes_check row := by
      unfold contradiction_notes_check
      exact List.mem_append_left _ (List.mem_filterMap.mpr ⟨_, by decide, hf⟩)
    rw [evaluate_row_attention]
    refine List.mem_append_right _ (List.mem_append_right _ (List.mem_append_right _
      (List.mem_append_left _ ?_)))
    exact List.mem_map.mpr ⟨_, hcmem, rfl⟩
  · intro ht hw s hs
    rw [evaluate_row_attention] at hs
    rcases List.mem_append.mp hs with h | hs
    · obtain ⟨p, hp, heq, _, _⟩ := mandatoryAttentionItems_shape row s h
      subst heq
      have hna : ∀ q ∈ MANDATORY_FIELDS, strStartsWith (notAnsweredMsg q.1)
          ("Notes contradict ticks: Brakes operational? (Y/N):") = false := by decide
      exact hna p hp
    rcases List.mem_append.mp hs with h | hs
    · rcases visContextItems_shape row s h with rfl | rfl <;> decide
    rcases List.mem_append.mp hs with h | hs
    · rw [lgCertItems_shape row s h]
      decide
    rcases List.mem_append.mp hs with h | hs
    · obtain ⟨c, hc, rfl⟩ := List.mem_map.mp h
      rw [startsWith_contra_entry]
      exact contra_no_brakes row c ht hw hc
    · rcases evidence_prompts_shape row s hs with rfl | rfl | rfl | rfl <;> decide

/-- A record ticking brakes Y whose notes mention brake fade. -/
def c7rowY : Row := [("Brakes operational? (Y/N)", .vstr "Y"),
  ("Notes / Defects", .vstr "severe brake fade near rated load")]

/-- The same notes with brakes ticked N. -/
def c7rowN : Row := [("Brakes operational? (Y/N)", .vstr "N"),
  ("Notes / Defects", .vstr "severe brake fade near rated load")]

/-- Witness for C7: both halves at concrete records. -/
theorem brake_fade_contradiction_witness :
    ((("Notes contradict ticks: ") ++ contradictionYMsg "Brakes operational? (Y/N)"
      ((["drifts", "creeps", "won\x27t hold", "wont hold", "weak brake", "fade",
          "brake fade", "slips"].filter
        (fun w => containsSub (notesBlob c7rowY) w)).take 3)) ∈
      (evaluate_row 20240 c7rowY).attention) ∧
    (∀ s ∈ (evaluate_row 20240 c7rowN).attention,
      strStartsWith s ("Notes contradict ticks: Brakes operational? (Y/N):") = false) :=
  ⟨(brake_fade_contradiction 20240 c7rowY).1 (by decide) (by decide),
    (brake_fade_contradiction 20240 c7rowN).2 (by decide) (by decide)⟩

/-! ### Shape lemmas for the issues and due-soon segments -/

/-- The 5-year rule only ever emits its fixed issue text. -/
theorem proofTestItems_fst_shape (today : Int) (row : Row) (s : String)
    (h : s ∈ (proofTestItems today row).1) : s = msg5yr := by
  unfold proofTestItems at h
  split at h
  · simpa using h
  · split at h
    · simpa using h
    · split at h <;> simp at h

/-- The annual rule only ever emits its fixed issue text. -/
theorem annualExamItems_fst_shape (today : Int) (row : Row) (s : String)
    (h : s ∈ (annualExamItems today row).1) : s = msgAnnual := by
  unfold annualExamItems at h
  split at h
  · simpa using h
  · split at h
    · simpa using h
    · split at h <;> simp at h

/-- The loose-gear rule only ever emits its fixed issue text. -/
theorem looseGearItems_fst_shape (today : Int) (row : Row) (s : String)
    (h : s ∈ (looseGearItems today row).1) : s = msgLoose := by
  unfold looseGearItems at h
  split at h
  · simpa using h
  · split at h
    · simpa using h
    · split at h <;> simp at h

/-- The 5-year rule only ever emits its due-soon text. -/
theorem proofTestItems_snd_shape (today : Int) (row : Row) (s : String)
    (h : s ∈ (proofTestItems today row).2) : ∃ n, s = dueMsg5 n := by
  unfold proofTestItems at h
  split at h
  · simp at h
  · split at h
    · simp at h
    · split at h
      · exact ⟨_, by simpa using h⟩
      · simp at h

/-- The annual rule only ever emits its due-soon text. -/
theorem annualExamItems_snd_shape (today : Int) (row : Row) (s : String)
    (h : s ∈ (annualExamItems today row).2) : ∃ n, s = dueMsgAnnual n := by
  unfold annualExamItems at h
  split at h
  · simp at h
  · split at h
    · simp at h
    · split at h
      · exact ⟨_, by simpa using h⟩
      · simp at h

/-- The loose-gear rule only ever emits its due-soon text. -/
theorem looseGearItems_snd_shape (today : Int) (row : Row) (s : String)
    (h : s ∈ (looseGearItems today row).2) : ∃ n, s = dueMsgLoose n := by
  unfold looseGearItems at h
  split at h
  · simp at h
  · split at h
    · simp at h
    · split at h
      · exact ⟨_, by simpa using h⟩
      · simp at h

/-- The SWL check only ever emits a mismatch text. -/
theorem swlItems_shape (row : Row) (s : String) (h : s ∈ swlItems row) :
    ∃ a b, s = swlMsg a b := by
  unfold swlItems at h
  split at h
  · split at h
    · exact ⟨_, _, by simpa using h⟩
    · cases h
  · cases h

/-- Every NOT OK issue names a table field ticked N. -/
theorem mandatoryIssueItems_shape (row : Row) (s : String)
    (h : s ∈ mandatoryIssueItems row) :
    ∃ p, p ∈ MANDATORY_FIELDS ∧ s = nokMsg p.1 p.2 ∧ tickOf row p.1 = "N" := by
  simp only [mandatoryIssueItems] at h
  obtain ⟨p, hp, hpe⟩ := List.mem_filterMap.mp h
  refine ⟨p, hp, ?_⟩
  split at hpe
  · cases hpe
  · split at hpe
    · rename_i h1 h2
      injection hpe with hpe
      refine ⟨hpe.symm, ?_⟩
      rcases not_and_or.mp h1 with h1 | h1
      · exact absurd (not_not.mp h1) h2
      · exact not_not.mp h1
    · cases hpe

/-- A mismatch text is distinct from any string diverging from it within
its first sixteen characters. -/
theorem swlMsg_ne (a b : PyFloat) (m : String)
    (h : m.data.take 16 ≠ ("Loose gear SWL (").data) : swlMsg a b ≠ m :=
  ne_of_startA ("Loose gear SWL (")
    (pyFloatStr a ++ ((" t) exceeds crane SWL (") ++ (pyFloatStr b ++ (" t) - mismatch."))))
    m h

/-- The 5-year due text never coincides with the annual due text. -/
theorem dueMsg5_ne_dueMsgAnnual (n m : Int) : dueMsg5 n ≠ dueMsgAnnual m := by
  intro h
  have h2 : ((dueMsg5 n).data.take 1) = ((dueMsgAnnual m).data.take 1) := by rw [h]
  rw [show (dueMsg5 n).data.take 1 = ['5'] from rfl,
      show (dueMsgAnnual m).data.take 1 = ['A'] from rfl] at h2
  exact absurd h2 (by decide)

/-- The 5-year due text never coincides with the loose-gear due text. -/
theorem dueMsg5_ne_dueMsgLoose (n m : Int) : dueMsg5 n ≠ dueMsgLoose m := by
  intro h
  have h2 : ((dueMsg5 n).data.take 1) = ((dueMsgLoose m).data.take 1) := by rw [h]
  rw [show (dueMsg5 n).data.take 1 = ['5'] from rfl,
      show (dueMsgLoose m).data.take 1 = ['L'] from rfl] at h2
  exact absurd h2 (by decide)

/-- The annual due text never coincides with the 5-year due text. -/
theorem dueMsgAnnual_ne_dueMsg5 (n m : Int) : dueMsgAnnual n ≠ dueMsg5 m := by
  intro h
  have h2 : ((dueMsgAnnual n).data.take 1) = ((dueMsg5 m).data.take 1) := by rw [h]
  rw [show (dueMsgAnnual n).data.take 1 = ['A'] from rfl,
      show (dueMsg5 m).data.take 1 = ['5'] from rfl] at h2
  exact absurd h2 (by decide)

/-- The annual due text never coincides with the loose-gear due text. -/
theorem dueMsgAnnual_ne_dueMsgLoose (n m : Int) : dueMsgAnnual n ≠ dueMsgLoose m := by
  intro h
  have h2 : ((dueMsgAnnual n).data.take 1) = ((dueMsgLoose m).data.take 1) := by rw [h]
  rw [show (dueMsgAnnual n).data.take 1 = ['A'] from rfl,
      show (dueMsgLoose m).data.take 1 = ['L'] from rfl] at h2
  exact absurd h2 (by decide)

/-- The loose-gear due text never coincides with the 5-year due text. -/
theorem dueMsgLoose_ne_dueMsg5 (n m : Int) : dueMsgLoose n ≠ dueMsg5 m := by
  intro h
  have h2 : ((dueMsgLoose n).data.take 1) = ((dueMsg5 m).data.take 1) := by rw [h]
  rw [show (dueMsgLoose n).data.take 1 = ['L'] from rfl,
      show (dueMsg5 m).data.take 1 = ['5'] from rfl] at h2
  exact absurd h2 (by decide)

/-- The loose-gear due text never coincides with the annual due text. -/
theorem dueMsgLoose_ne_dueMsgAnnual (n m : Int) : dueMsgLoose n ≠ dueMsgAnnual m := by
  intro h
  have h2 : ((dueMsgLoose n).data.take 1) = ((dueMsgAnnual m).data.take 1) := by rw [h]
  rw [show (dueMsgLoose n).data.take 1 = ['L'] from rfl,
      show (dueMsgAnnual m).data.take 1 = ['A'] from rfl] at h2
  exact absurd h2 (by decide)

/-- The 5-year issue text appears in the issues list exactly when the
5-year segment emits it. -/
theorem mem_issues_iff_seg5 (today : Int) (row : Row) :
    msg5yr ∈ (evaluate_row today row).issues ↔ msg5yr ∈ (proofTestItems today row).1 := by
  rw [evaluate_row_issues]
  simp only [List.mem_append]
  constructor
  · rintro (h | h | h | h | h)
    · exact h
    · exact absurd (annualExamItems_fst_shape today row _ h) (by decide)
    · obtain ⟨p, hp, heq, _⟩ := mandatoryIssueItems_shape row _ h
      have hne : ∀ q ∈ MANDATORY_FIELDS, msg5yr ≠ nokMsg q.1 q.2 := by decide
      exact absurd heq (hne p hp)
    · obtain ⟨a, b, heq⟩ := swlItems_shape row _ h
      exact absurd heq.symm (swlMsg_ne a b _ (by decide))
    · exact absurd (looseGearItems_fst_shape today row _ h) (by decide)
  · exact fun h => Or.inl h

/-- The annual issue text appears in the issues list exactly when the
annual segment emits it. -/
theorem mem_issues_iff_seg12 (today : Int) (row : Row) :
    msgAnnual ∈ (evaluate_row today row).issues ↔
      msgAnnual ∈ (annualExamItems today row).1 := by
  rw [evaluate_row_issues]
  simp only [List.mem_append]
  constructor
  · rintro (h | h | h | h | h)
    · exact absurd (proofTestItems_fst_shape today row _ h) (by decide)
    · exact h
    · obtain ⟨p, hp, heq, _⟩ := mandatoryIssueItems_shape row _ h
      have hne : ∀ q ∈ MANDATORY_FIELDS, msgAnnual ≠ nokMsg q.1 q.2 := by decide
      exact absurd heq (hne p hp)
    · obtain ⟨a, b, heq⟩ := swlItems_shape row _ h
      exact absurd heq.symm (swlMsg_ne a b _ (by decide))
    · exact absurd (looseGearItems_fst_shape today row _ h) (by decide)
  · exact fun h => Or.inr (Or.inl h)

/-- The loose-gear issue text appears in the issues list exactly when the
loose-gear segment emits it. -/
theorem mem_issues_iff_seglg (today : Int) (row : Row) :
    msgLoose ∈ (evaluate_row today row).issues ↔
      msgLoose ∈ (looseGearItems today row).1 := by
  rw [evaluate_row_issues]
  simp only [List.mem_append]
  constructor
  · rintro (h | h | h | h | h)
    · exact absurd (proofTestItems_fst_shape today row _ h) (by decide)
    · exact absurd (annualExamItems_fst_shape today row _ h) (by decide)
    · obtain ⟨p, hp, heq, _⟩ := mandatoryIssueItems_shape row _ h
      have hne : ∀ q ∈ MANDATORY_FIELDS, msgLoose ≠ nokMsg q.1 q.2 := by decide
      exact absurd heq (hne p hp)
    · obtain ⟨a, b, heq⟩ := swlItems_shape row _ h
      exact absurd heq.symm (swlMsg_ne a b _ (by decide))
    · exact h
  · exact fun h => Or.inr (Or.inr (Or.inr (Or.inr h)))

/-- A 5-year due text appears in the due list exactly when the 5-year
segment emits it. -/
theorem mem_due_iff_seg5 (today : Int) (row : Row) (n : Int) :
    dueMsg5 n ∈ (evaluate_row today row).due_soon ↔
      dueMsg5 n ∈ (proofTestItems today row).2 := by
  rw [evaluate_row_due]
  simp only [List.mem_append]
  constructor
  · rintro (h | h | h)
    · exact h
    · obtain ⟨m, heq⟩ := annualExamItems_snd_shape today row _ h
      exact absurd heq.symm (dueMsgAnnual_ne_dueMsg5 m n)
    · obtain ⟨m, heq⟩ := looseGearItems_snd_shape today row _ h
      exact absurd heq.symm (dueMsgLoose_ne_dueMsg5 m n)
  · exact fun h => Or.inl h

/-- An annual due text appears in the due list exactly when the annual
segment emits it. -/
theorem mem_due_iff_seg12 (today : Int) (row : Row) (n : Int) :
    dueMsgAnnual n ∈ (evaluate_row today row).due_soon ↔
      dueMsgAnnual n ∈ (annualExamItems today row).2 := by
  rw [evaluate_row_due]
  simp only [List.mem_append]
  constructor
  · rintro (h | h | h)
    · obtain ⟨m, heq⟩ := proofTestItems_snd_shape today row _ h
      exact absurd heq.symm (dueMsg5_ne_dueMsgAnnual m n)
    · exact h
    · obtain ⟨m, heq⟩ := looseGearItems_snd_shape today row _ h
      exact absurd heq.symm (dueMsgLoose_ne_dueMsgAnnual m n)
  · exact fun h => Or.inr (Or.inl h)

/-- A loose-gear due text appears in the due list exactly when the
loose-gear segment emits it. -/
theorem mem_due_iff_seglg (today : Int) (row : Row) (n : Int) :
    dueMsgLoose n ∈ (evaluate_row today row).due_soon ↔
      dueMsgLoose n ∈ (looseGearItems today row).2 := by
  rw [evaluate_row_due]
  simp only [List.mem_append]
  constructor
  · rintro (h | h | h)
    · obtain ⟨m, heq⟩ := proofTestItems_snd_shape today row _ h
      exact absurd heq.symm (dueMsg5_ne_dueMsgLoose m n)
    · obtain ⟨m, heq⟩ := annualExamItems_snd_shape today row _ h
      exact absurd heq.symm (dueMsgAnnual_ne_dueMsgLoose m n)
    · exact h
  · exact fun h => Or.inr (Or.inr h)

/-- The 5-year segment emits its issue exactly on absence or overdue. -/
theorem proofTestItems_fst_iff (today : Int) (row : Row) :
    msg5yr ∈ (proofTestItems today row).1 ↔
      ∀ d, parse_date (row.get "Last 5-year Proof Test Date") = some d →
        today - d > 5 * 365 := by
  cases hp : parse_date (row.get "Last 5-year Proof Test Date") with
  | none =>
    have hred : proofTestItems today row = ([msg5yr], []) := by
      simp only [proofTestItems, hp]
    rw [hred]
    simp
  | some d =>
    by_cases hover : today - d > 5 * 365
    · refine iff_of_true ?_ ?_
      · have hred : proofTestItems today row = ([msg5yr], []) := by
          simp only [proofTestItems, hp]
          rw [if_pos hover]
        rw [hred]
        simp
      · intro d2 hd2
        injection hd2 with hd2
        subst hd2
        exact hover
    · refine iff_of_false ?_ ?_
      · have hred : (proofTestItems today row).1 = [] := by
          simp only [proofTestItems, hp]
          rw [if_neg hover]
          split <;> rfl
        rw [hred]
        simp
      · intro hall
        exact hover (hall d rfl)

/-- The annual segment emits its issue exactly on absence or overdue. -/
theorem annualExamItems_fst_iff (today : Int) (row : Row) :
    msgAnnual ∈ (annualExamItems today row).1 ↔
      ∀ d, parse_date (row.get "Last Annual Thorough Exam Date") = some d →
        today - d > 365 + 31 := by
  cases hp : parse_date (row.get "Last Annual Thorough Exam Date") with
  | none =>
    have hred : annualExamItems today row = ([msgAnnual], []) := by
      simp only [annualExamItems, hp]
    rw [hred]
    simp
  | some d =>
    by_cases hover : today - d > 365 + 31
    · refine iff_of_true ?_ ?_
      · have hred : annualExamItems today row = ([msgAnnual], []) := by
          simp only [annualExamItems, hp]
          rw [if_pos hover]
        rw [hred]
        simp
      · intro d2 hd2
        injection hd2 with hd2
        subst hd2
        exact hover
    · refine iff_of_false ?_ ?_
      · have hred : (annualExamItems today row).1 = [] := by
          simp only [annualExamItems, hp]
          rw [if_neg hover]
          split <;> rfl
        rw [hred]
        simp
      · intro hall
        exact hover (hall d rfl)

/-- The loose-gear segment emits its issue exactly on absence or overdue. -/
theorem looseGearItems_fst_iff (today : Int) (row : Row) :
    msgLoose ∈ (looseGearItems today row).1 ↔
      ∀ d, parse_date (row.get "Loose Gear: Last Inspection/Proof Date") = some d →
        today - d > 365 := by
  cases hp : parse_date (row.get "Loose Gear: Last Inspection/Proof Date") with
  | none =>
    have hred : looseGearItems today row = ([msgLoose], []) := by
      simp only [looseGearItems, hp]
    rw [hred]
    simp
  | some d =>
    by_cases hover : today - d > 365
    · refine iff_of_true ?_ ?_
      · have hred : looseGearItems today row = ([msgLoose], []) := by
          simp only [looseGearItems, hp]
          rw [if_pos hover]
        rw [hred]
        simp
      · intro d2 hd2
        injection hd2 with hd2
        subst hd2
        exact hover
    · refine iff_of_false ?_ ?_
      · have hred : (looseGearItems today row).1 = [] := by
          simp only [looseGearItems, hp]
          rw [if_neg hover]
          split <;> rfl
        rw [hred]
        simp
      · intro hall
        exact hover (hall d rfl)

/-- The compliant, due-soon 5-year date emits the exact remaining count. -/
theorem proofTestItems_snd_mem (today : Int) (row : Row) (d : Int)
    (hp : parse_date (row.get "Last 5-year Proof Test Date") = some d)
    (h1 : today - d ≤ 5 * 365) (h2 : d + 5 * 365 - today ≤ 90) :
    dueMsg5 (d + 5 * 365 - today) ∈ (proofTestItems today row).2 := by
  simp only [proofTestItems, hp]
  rw [if_neg (by omega), if_pos h2]
  simp

/-- The within-grace, due-soon annual date emits the exact remaining
count. -/
theorem annualExamItems_snd_mem (today : Int) (row : Row) (d : Int)
    (hp : parse_date (row.get "Last Annual Thorough Exam Date") = some d)
    (h1 : today - d ≤ 365 + 31) (h2 : d + 365 - today ≤ 30) :
    dueMsgAnnual (d + 365 - today) ∈ (annualExamItems today row).2 := by
  simp only [annualExamItems, hp]
  rw [if_neg (by omega), if_pos h2]
  simp

/-- The compliant, due-soon loose-gear date emits the exact remaining
count. -/
theorem looseGearItems_snd_mem (today : Int) (row : Row) (d : Int)
    (hp : parse_date (row.get "Loose Gear: Last Inspection/Proof Date") = some d)
    (h1 : today - d ≤ 365) (h2 : d + 365 - today ≤ 30) :
    dueMsgLoose (d + 365 - today) ∈ (looseGearItems today row).2 := by
  simp only [looseGearItems, hp]
  rw [if_neg (by omega), if_pos h2]
  simp

/-- The 5-year segment emits a due text exactly on a compliant date at
most 90 days from expiry. -/
theorem proofTestItems_snd_iff (today : Int) (row : Row) :
    (∃ n, dueMsg5 n ∈ (proofTestItems today row).2) ↔
      ∃ d, parse_date (row.get "Last 5-year Proof Test Date") = some d ∧
        today - d ≤ 5 * 365 ∧ d + 5 * 365 - today ≤ 90 := by
  cases hp : parse_date (row.get "Last 5-year Proof Test Date") with
  | none =>
    have hred : (proofTestItems today row).2 = [] := by
      simp only [proofTestItems, hp]
    refine iff_of_false ?_ ?_
    · rintro ⟨n, hn⟩
      rw [hred] at hn
      cases hn
    · rintro ⟨d2, hd2, h1, h2⟩
      cases hd2
  | some d =>
    by_cases hover : today - d > 5 * 365
    · refine iff_of_false ?_ ?_
      · rintro ⟨n, hn⟩
        have hred : (proofTestItems today row).2 = [] := by
          simp only [proofTestItems, hp]
          rw [if_pos hover]
        rw [hred] at hn
        cases hn
      · rintro ⟨d2, hd2, h1, h2⟩
        injection hd2 with hd2
        subst hd2
        omega
    · by_cases hdue : d + 5 * 365 - today ≤ 90
      · exact iff_of_true ⟨d + 5 * 365 - today,
          proofTestItems_snd_mem today row d hp (by omega) hdue⟩ ⟨d, rfl, by omega, hdue⟩
      · refine iff_of_false ?_ ?_
        · rintro ⟨n, hn⟩
          have hred : (proofTestItems today row).2 = [] := by
            simp only [proofTestItems, hp]
            rw [if_neg hover, if_neg hdue]
          rw [hred] at hn
          cases hn
        · rintro ⟨d2, hd2, h1, h2⟩
          injection hd2 with hd2
          subst hd2
          exact absurd h2 hdue

/-- The annual segment emits a due text exactly on a within-grace date at
most 30 days from expiry. -/
theorem annualExamItems_snd_iff (today : Int) (row : Row) :
    (∃ n, dueMsgAnnual n ∈ (annualExamItems today row).2) ↔
      ∃ d, parse_date (row.get "Last Annual Thorough Exam Date") = some d ∧
        today - d ≤ 365 + 31 ∧ d + 365 - today ≤ 30 := by
  cases hp : parse_date (row.get "Last Annual Thorough Exam Date") with
  | none =>
    have hred : (annualExamItems today row).2 = [] := by
      simp only [annualExamItems, hp]
    refine iff_of_false ?_ ?_
    · rintro ⟨n, hn⟩
      rw [hred] at hn
      cases hn
    · rintro ⟨d2, hd2, h1, h2⟩
      cases hd2
  | some d =>
    by_cases hover : today - d > 365 + 31
    · refine iff_of_false ?_ ?_
      · rintro ⟨n, hn⟩
        have hred : (annualExamItems today row).2 = [] := by
          simp only [annualExamItems, hp]
          rw [if_pos hover]
        rw [hred] at hn
        cases hn
      · rintro ⟨d2, hd2, h1, h2⟩
        injection hd2 with hd2
        subst hd2
        omega
    · by_cases hdue : d + 365 - today ≤ 30
      · exact iff_of_true ⟨d + 365 - today,
          annualExamItems_snd_mem today row d hp (by omega) hdue⟩ ⟨d, rfl, by omega, hdue⟩
      · refine iff_of_false ?_ ?_
        · rintro ⟨n, hn⟩
          have hred : (annualExamItems today row).2 = [] := by
            simp only [annualExamItems, hp]
            rw [if_neg hover, if_neg hdue]
          rw [hred] at hn
          cases hn
        · rintro ⟨d2, hd2, h1, h2⟩
          injection hd2 with hd2
          subst hd2
          exact absurd h2 hdue

/-- The loose-gear segment emits a due text exactly on a compliant date
at most 30 days from expiry. -/
theorem looseGearItems_snd_iff (today : Int) (row : Row) :
    (∃ n, dueMsgLoose n ∈ (looseGearItems today row).2) ↔
      ∃ d, parse_date (row.get "Loose Gear: Last Inspection/Proof Date") = some d ∧
        today - d ≤ 365 ∧ d + 365 - today ≤ 30 := by
  cases hp : parse_date (row.get "Loose Gear: Last Inspection/Proof Date") with
  | none =>
    have hred : (looseGearItems today row).2 = [] := by
      simp only [looseGearItems, hp]
    refine iff_of_false ?_ ?_
    · rintro ⟨n, hn⟩
      rw [hred] at hn
      cases hn
    · rintro ⟨d2, hd2, h1, h2⟩
      cases hd2
  | some d =>
    by_cases hover : today - d > 365
    · refine iff_of_false ?_ ?_
      · rintro ⟨n, hn⟩
        have hred : (looseGearItems today row).2 = [] := by
          simp only [looseGearItems, hp]
          rw [if_pos hover]
        rw [hred] at hn
        cases hn
      · rintro ⟨d2, hd2, h1, h2⟩
        injection hd2 with hd2
        subst hd2
        omega
    · by_cases hdue : d + 365 - today ≤ 30
      · exact iff_of_true ⟨d + 365 - today,
          looseGearItems_snd_mem today row d hp (by omega) hdue⟩ ⟨d, rfl, by omega, hdue⟩
      · refine iff_of_false ?_ ?_
        · rintro ⟨n, hn⟩
          have hred : (looseGearItems today row).2 = [] := by
            simp only [looseGearItems, hp]
            rw [if_neg hover, if_neg hdue]
          rw [hred] at hn
          cases hn
        · rintro ⟨d2, hd2, h1, h2⟩
          injection hd2 with hd2
          subst hd2
          exact absurd h2 hdue

/-- Claim C3: for each interval rule (5-year proof test: 5 × 365 days, no
grace, 90-day threshold; annual exam: 365 days with 31 days of grace,
30-day threshold; loose gear: 365 days, no grace, 30-day threshold), the
hard issue is emitted exactly when the parsed date is absent or the
elapsed days exceed interval plus grace, and otherwise a due-soon notice
with the exact remaining day count until date plus interval is emitted
exactly when that count is at or under the rule's threshold. -/
theorem interval_rules (today : Int) (row : Row) :
    (msg5yr ∈ (evaluate_row today row).issues ↔
      ∀ d, parse_date (row.get "Last 5-year Proof Test Date") = some d →
        today - d > 5 * 365) ∧
    (msgAnnual ∈ (evaluate_row today row).issues ↔
      ∀ d, parse_date (row.get "Last Annual Thorough Exam Date") = some d →
        today - d > 365 + 31) ∧
    (msgLoose ∈ (evaluate_row today row).issues ↔
      ∀ d, parse_date (row.get "Loose Gear: Last Inspection/Proof Date") = some d →
        today - d > 365) ∧
    ((∃ n, dueMsg5 n ∈ (evaluate_row today row).due_soon) ↔
      ∃ d, parse_date (row.get "Last 5-year Proof Test Date") = some d ∧
        today - d ≤ 5 * 365 ∧ d + 5 * 365 - today ≤ 90) ∧
    (∀ d, parse_date (row.get "Last 5-year Proof Test Date") = some d →
      today - d ≤ 5 * 365 → d + 5 * 365 - today ≤ 90 →
      dueMsg5 (d + 5 * 365 - today) ∈ (evaluate_row today row).due_soon) ∧
    ((∃ n, dueMsgAnnual n ∈ (evaluate_row today row).due_soon) ↔
      ∃ d, parse_date (row.get "Last Annual Thorough Exam Date") = some d ∧
        today - d ≤ 365 + 31 ∧ d + 365 - today ≤ 30) ∧
    (∀ d, parse_date (row.get "Last Annual Thorough Exam Date") = some d →
      today - d ≤ 365 + 31 → d + 365 - today ≤ 30 →
      dueMsgAnnual (d + 365 - today) ∈ (evaluate_row today row).due_soon) ∧
    ((∃ n, dueMsgLoose n ∈ (evaluate_row today row).due_soon) ↔
      ∃ d, parse_date (row.get "Loose Gear: Last Inspection/Proof Date") = some d ∧
        today - d ≤ 365 ∧ d + 365 - today ≤ 30) ∧
    (∀ d, parse_date (row.get "Loose Gear: Last Inspection/Proof Date") = some d →
      today - d ≤ 365 → d + 365 - today ≤ 30 →
      dueMsgLoose (d + 365 - today) ∈ (evaluate_row today row).due_soon) := by
  refine ⟨(mem_issues_iff_seg5 today row).trans (proofTestItems_fst_iff today row),
    (mem_issues_iff_seg12 today row).trans (annualExamItems_fst_iff today row),
    (mem_issues_iff_seglg today row).trans (looseGearItems_fst_iff today row),
    ?_, ?_, ?_, ?_, ?_, ?_⟩
  · exact (exists_congr (fun n => mem_due_iff_seg5 today row n)).trans
      (proofTestItems_snd_iff today row)
  · intro d hp h1 h2
    exact (mem_due_iff_seg5 today row _).mpr (proofTestItems_snd_mem today row d hp h1 h2)
  · exact (exists_congr (fun n => mem_due_iff_seg12 today row n)).trans
      (annualExamItems_snd_iff today row)
  · intro d hp h1 h2
    exact (mem_due_iff_seg12 today row _).mpr (annualExamItems_snd_mem today row d hp h1 h2)
  · exact (exists_congr (fun n => mem_due_iff_seglg today row n)).trans
      (looseGearItems_snd_iff today row)
  · intro d hp h1 h2
    exact (mem_due_iff_seglg today row _).mpr (looseGearItems_snd_mem today row d hp h1 h2)

/-- A record whose annual exam falls due in exactly 30 days from the
reference date 20240 (2025-06-01). -/
def c3row : Row := [("Last Annual Thorough Exam Date", .vstr "01-07-2024")]

/-- Witness for C3: a blank 5-year date yields the hard issue, and the
30-days-remaining annual date yields its exact due-soon notice. -/
theorem interval_rules_witness :
    msg5yr ∈ (evaluate_row 20240 ([] : Row)).issues ∧
    dueMsgAnnual (toRataDie 2024 7 1 + 365 - 20240) ∈
      (evaluate_row 20240 c3row).due_soon := by
  constructor
  · apply (interval_rules 20240 ([] : Row)).1.mpr
    intro d hd
    rw [show parse_date (Row.get ([] : Row) "Last 5-year Proof Test Date") = none
      by decide] at hd
    cases hd
  · exact (interval_rules 20240 c3row).2.2.2.2.2.2.1 (toRataDie 2024 7 1)
      (by decide) (by decide) (by decide)

/-! ### Counting machinery for the mandatory-field claim -/

/-- A filterMap whose function is a guarded map is the map of a filter. -/
theorem filterMap_if_eq (l : List (String × String)) (c : String × String → Bool)
    (g : String × String → String) (f : String × String → Option String)
    (hf : ∀ p, f p = if c p = true then some (g p) else none) :
    l.filterMap f = (l.filter c).map g := by
  induction l with
  | nil => rfl
  | cons a t ih =>
    by_cases hca : c a = true <;>
      simp [List.filterMap_cons, hf a, List.filter_cons, hca, ih]

/-- The NOT OK issues are the table's N-ticked rows, mapped, in order. -/
theorem mandatoryIssueItems_eq (row : Row) :
    mandatoryIssueItems row =
      (MANDATORY_FIELDS.filter (fun p => tickOf row p.1 == "N")).map
        (fun p => nokMsg p.1 p.2) := by
  apply filterMap_if_eq
  intro p
  by_cases h1 : tickOf row p.1 = "Y"
  · simp [h1]
  · by_cases h2 : tickOf row p.1 = "N"
    · simp [h1, h2]
    · simp [h1, h2]

/-- The unanswered attention items are the table's unanswered rows,
mapped, in order. -/
theorem mandatoryAttentionItems_eq (row : Row) :
    mandatoryAttentionItems row =
      (MANDATORY_FIELDS.filter
        (fun p => !(tickOf row p.1 == "Y") && !(tickOf row p.1 == "N"))).map
        (fun p => notAnsweredMsg p.1) := by
  apply filterMap_if_eq
  intro p
  by_cases h1 : tickOf row p.1 = "Y"
  · simp [h1]
  · by_cases h2 : tickOf row p.1 = "N"
    · simp [h1, h2]
    · simp [h1, h2]

/-- A list whose members all differ from `x` counts `x` zero times. -/
theorem count_eq_zero_of_shape {l : List String} {x : String}
    (h : ∀ s ∈ l, s ≠ x) : l.count x = 0 :=
  List.count_eq_zero.mpr (fun hx => (h x hx) rfl)

/-- Counting the image of a distinguished element in a mapped filter of a
duplicate-free list: one when the element passes the filter, else zero. -/
theorem count_map_filter {α : Type} [DecidableEq α] (l : List α) (c : α → Bool)
    (g : α → String) (p : α) (hp : p ∈ l) (hnd : l.Nodup)
    (hinj : ∀ q ∈ l, g q = g p → q = p) :
    ((l.filter c).map g).count (g p) = if c p = true then 1 else 0 := by
  induction l with
  | nil => cases hp
  | cons a t ih =>
    rcases List.mem_cons.mp hp with rfl | hpt
    · have hzero : ((t.filter c).map g).count (g p) = 0 := by
        rw [List.count_eq_zero]
        intro hmem
        obtain ⟨q, hq, hgq⟩ := List.mem_map.mp hmem
        have hq2 := List.mem_of_mem_filter hq
        have hqp := hinj q (List.mem_cons_of_mem _ hq2) hgq
        subst hqp
        exact (List.nodup_cons.mp hnd).1 hq2
      by_cases hca : c p = true
      · simp [List.filter_cons, hca, hzero]
      · simp [List.filter_cons, hca, hzero]
    · have hap : a ≠ p := fun h => (List.nodup_cons.mp hnd).1 (h ▸ hpt)
      have hga : g a ≠ g p := fun h => hap (hinj a (List.mem_cons_self a t) h)
      have ih2 := ih hpt (List.nodup_cons.mp hnd).2
        (fun q hq => hinj q (List.mem_cons_of_mem _ hq))
      by_cases hca : c a = true
      · simp [List.filter_cons, hca, List.count_cons, hga, ih2]
      · simp [List.filter_cons, hca, ih2]

/-- Claim C4: a record with some mandatory field ticked N is FAIL; each
N-ticked table field contributes exactly one NOT OK issue carrying its
regulatory reference, each unanswered table field contributes exactly one
not-answered attention item, and within each list these entries appear
exactly as the table order filtered to the triggering fields. -/
theorem mandatory_field_rules (today : Int) (row : Row) :
    ((∃ p, p ∈ MANDATORY_FIELDS ∧ tickOf row p.1 = "N") →
      (evaluate_row today row).status = "FAIL") ∧
    (∀ p ∈ MANDATORY_FIELDS,
      (evaluate_row today row).issues.count (nokMsg p.1 p.2) =
        if tickOf row p.1 = "N" then 1 else 0) ∧
    (∀ p ∈ MANDATORY_FIELDS,
      (evaluate_row today row).attention.count (notAnsweredMsg p.1) =
        if tickOf row p.1 ≠ "Y" ∧ tickOf row p.1 ≠ "N" then 1 else 0) ∧
    ((evaluate_row today row).issues.filter
        (fun s => (MANDATORY_FIELDS.map (fun p => nokMsg p.1 p.2)).contains s) =
      (MANDATORY_FIELDS.filter (fun p => tickOf row p.1 == "N")).map
        (fun p => nokMsg p.1 p.2)) ∧
    ((evaluate_row today row).attention.filter
        (fun s => (MANDATORY_FIELDS.map (fun p => notAnsweredMsg p.1)).contains s) =
      (MANDATORY_FIELDS.filter
        (fun p => !(tickOf row p.1 == "Y") && !(tickOf row p.1 == "N"))).map
        (fun p => notAnsweredMsg p.1)) := by
  have hs16 : ∀ q ∈ MANDATORY_FIELDS,
      (nokMsg q.1 q.2).data.take 16 ≠ ("Loose gear SWL (").data := by decide
  have hnok5 : ∀ q ∈ MANDATORY_FIELDS, nokMsg q.1 q.2 ≠ msg5yr := by decide
  have hnok12 : ∀ q ∈ MANDATORY_FIELDS, nokMsg q.1 q.2 ≠ msgAnnual := by decide
  have hnoklg : ∀ q ∈ MANDATORY_FIELDS, nokMsg q.1 q.2 ≠ msgLoose := by decide
  have hinjnok : ∀ p ∈ MANDATORY_FIELDS, ∀ q ∈ MANDATORY_FIELDS,
      nokMsg q.1 q.2 = nokMsg p.1 p.2 → q = p := by decide
  have hinjna : ∀ p ∈ MANDATORY_FIELDS, ∀ q ∈ MANDATORY_FIELDS,
      notAnsweredMsg q.1 = notAnsweredMsg p.1 → q = p := by decide
  have hndtbl : MANDATORY_FIELDS.Nodup := by decide
  have hna_vis : ∀ q ∈ MANDATORY_FIELDS,
      shiftMsg ≠ notAnsweredMsg q.1 ∧ weatherMsg ≠ notAnsweredMsg q.1 := by decide
  have hna_lgc : ∀ q ∈ MANDATORY_FIELDS, lgCertMsg ≠ notAnsweredMsg q.1 := by decide
  have hna_pr : ∀ q ∈ MANDATORY_FIELDS,
      promptCertNo ≠ notAnsweredMsg q.1 ∧ promptRegister ≠ notAnsweredMsg q.1 ∧
      promptPlan ≠ notAnsweredMsg q.1 ∧ promptLooseCert ≠ notAnsweredMsg q.1 := by decide
  have hna_take : ∀ q ∈ MANDATORY_FIELDS,
      (notAnsweredMsg q.1).data.take (("Notes contradict ticks: ").data.length) ≠
        ("Notes contradict ticks: ").data := by decide
  have hcontra_ne : ∀ q ∈ MANDATORY_FIELDS, ∀ c : String,
      (("Notes contradict ticks: ") ++ c) ≠ notAnsweredMsg q.1 :=
    fun q hq c => ne_of_startA _ _ _ (hna_take q hq)
  refine ⟨?_, ?_, ?_, ?_, ?_⟩
  · rintro ⟨p, hp, htick⟩
    have hmem : nokMsg p.1 p.2 ∈ mandatoryIssueItems row := by
      apply List.mem_filterMap.mpr
      exact ⟨p, hp, by simp [htick]⟩
    have hne : (evaluate_row today row).issues ≠ [] := by
      apply List.ne_nil_of_mem
      rw [evaluate_row_issues]
      exact List.mem_append_right _ (List.mem_append_right _ (List.mem_append_left _ hmem))
    rw [evaluate_row_status]
    exact (aggStatus_spec _ _ _).1.mpr hne
  · intro p hp
    rw [evaluate_row_issues]
    simp only [List.count_append]
    have c5 : ((proofTestItems today row).1).count (nokMsg p.1 p.2) = 0 :=
      count_eq_zero_of_shape (fun s hs => by
        rw [proofTestItems_fst_shape today row s hs]
        exact Ne.symm (hnok5 p hp))
    have c12 : ((annualExamItems today row).1).count (nokMsg p.1 p.2) = 0 :=
      count_eq_zero_of_shape (fun s hs => by
        rw [annualExamItems_fst_shape today row s hs]
        exact Ne.symm (hnok12 p hp))
    have clg : ((looseGearItems today row).1).count (nokMsg p.1 p.2) = 0 :=
      count_eq_zero_of_shape (fun s hs => by
        rw [looseGearItems_fst_shape today row s hs]
        exact Ne.symm (hnoklg p hp))
    have csw : (swlItems row).count (nokMsg p.1 p.2) = 0 :=
      count_eq_zero_of_shape (fun s hs => by
        obtain ⟨a, b, rfl⟩ := swlItems_shape row s hs
        exact swlMsg_ne a b _ (hs16 p hp))
    have cm : (mandatoryIssueItems row).count (nokMsg p.1 p.2) =
        if (fun q => tickOf row q.1 == "N") p = true then 1 else 0 := by
      rw [mandatoryIssueItems_eq]
      exact count_map_filter MANDATORY_FIELDS _ _ p hp hndtbl (hinjnok p hp)
    rw [c5, c12, cm, csw, clg]
    by_cases ht : tickOf row p.1 = "N"
    · simp [ht]
    · simp [ht]
  · intro p hp
    rw [evaluate_row_attention]
    simp only [List.count_append]
    have cm : (mandatoryAttentionItems row).count (notAnsweredMsg p.1) =
        if (fun q => !(tickOf row q.1 == "Y") && !(tickOf row q.1 == "N")) p = true
        then 1 else 0 := by
      rw [mandatoryAttentionItems_eq]
      exact count_map_filter MANDATORY_FIELDS _ _ p hp hndtbl (hinjna p hp)
    have cv : (visContextItems row).count (notAnsweredMsg p.1) = 0 :=
      count_eq_zero_of_shape (fun s hs => by
        rcases visContextItems_shape row s hs with rfl | rfl
        · exact (hna_vis p hp).1
        · exact (hna_vis p hp).2)
    have cl : (lgCertItems row).count (notAnsweredMsg p.1) = 0 :=
      count_eq_zero_of_shape (fun s hs => by
        rw [lgCertItems_shape row s hs]
        exact hna_lgc p hp)
    have cc : (((contradiction_notes_check row).map
        (fun c => ("Notes contradict ticks: ") ++ c)).count (notAnsweredMsg p.1)) = 0 :=
      count_eq_zero_of_shape (fun s hs => by
        obtain ⟨c, _, rfl⟩ := List.mem_map.mp hs
        exact hcontra_ne p hp c)
    have cp : (evidence_prompts row).count (notAnsweredMsg p.1) = 0 :=
      count_eq_zero_of_shape (fun s hs => by
        rcases evidence_prompts_shape row s hs with rfl | rfl | rfl | rfl
        · exact (hna_pr p hp).1
        · exact (hna_pr p hp).2.1
        · exact (hna_pr p hp).2.2.1
        · exact (hna_pr p hp).2.2.2)
    rw [cm, cv, cl, cc, cp]
    by_cases h1 : tickOf row p.1 = "Y"
    · simp [h1]
    · by_cases h2 : tickOf row p.1 = "N"
      · simp [h1, h2]
      · simp [h1, h2]
  · rw [evaluate_row_issues]
    simp only [List.filter_append]
    have f5 : ((proofTestItems today row).1).filter
        (fun s => (MANDATORY_FIELDS.map (fun p => nokMsg p.1 p.2)).contains s) = [] := by
      rw [List.filter_eq_nil_iff]
      intro s hs
      rw [proofTestItems_fst_shape today row s hs]
      decide
    have f12 : ((annualExamItems today row).1).filter
        (fun s => (MANDATORY_FIELDS.map (fun p => nokMsg p.1 p.2)).contains s) = [] := by
      rw [List.filter_eq_nil_iff]
      intro s hs
      rw [annualExamItems_fst_shape today row s hs]
      decide
    have flg : ((looseGearItems today row).1).filter
        (fun s => (MANDATORY_FIELDS.map (fun p => nokMsg p.1 p.2)).contains s) = [] := by
      rw [List.filter_eq_nil_iff]
      intro s hs
      rw [looseGearItems_fst_shape today row s hs]
      decide
    have fsw : (swlItems row).filter
        (fun s => (MANDATORY_FIELDS.map (fun p => nokMsg p.1 p.2)).contains s) = [] := by
      rw [List.filter_eq_nil_iff]
      intro s hs
      obtain ⟨a, b, rfl⟩ := swlItems_shape row s hs
      intro hcon
      have hmem2 : swlMsg a b ∈ MANDATORY_FIELDS.map (fun p => nokMsg p.1 p.2) :=
        List.elem_iff.mp hcon
      obtain ⟨q, hq, hqe⟩ := List.mem_map.mp hmem2
      exact swlMsg_ne a b _ (hs16 q hq) hqe.symm
    have fm : (mandatoryIssueItems row).filter
        (fun s => (MANDATORY_FIELDS.map (fun p => nokMsg p.1 p.2)).contains s) =
        mandatoryIssueItems row := by
      rw [List.filter_eq_self]
      intro s hs
      obtain ⟨q, hq, rfl, _⟩ := mandatoryIssueItems_shape row s hs
      exact List.elem_iff.mpr (List.mem_map.mpr ⟨q, hq, rfl⟩)
    rw [f5, f12, fm, fsw, flg, mandatoryIssueItems_eq]
    simp
  · rw [evaluate_row_attention]
    simp only [List.filter_append]
    have fm : (mandatoryAttentionItems row).filter
        (fun s => (MANDATORY_FIELDS.map (fun p => notAnsweredMsg p.1)).contains s) =
        mandatoryAttentionItems row := by
      rw [List.filter_eq_self]
      intro s hs
      obtain ⟨q, hq, rfl, _, _⟩ := mandatoryAttentionItems_shape row s hs
      exact List.elem_iff.mpr (List.mem_map.mpr ⟨q, hq, rfl⟩)
    have fv : (visContextItems row).filter
        (fun s => (MANDATORY_FIELDS.map (fun p => notAnsweredMsg p.1)).contains s) = [] := by
      rw [List.filter_eq_nil_iff]
      intro s hs
      rcases visContextItems_shape row s hs with rfl | rfl <;> decide
    have fl : (lgCertItems row).filter
        (fun s => (MANDATORY_FIELDS.map (fun p => notAnsweredMsg p.1)).contains s) = [] := by
      rw [List.filter_eq_nil_iff]
      intro s hs
      rw [lgCertItems_shape row s hs]
      decide
    have fc : (((contradiction_notes_check row).map
        (fun c => ("Notes contradict ticks: ") ++ c)).filter
        (fun s => (MANDATORY_FIELDS.map (fun p => notAnsweredMsg p.1)).contains s)) = [] := by
      rw [List.filter_eq_nil_iff]
      intro s hs
      obtain ⟨c, _, rfl⟩ := List.mem_map.mp hs
      intro hcon
      obtain ⟨q, hq, hqe⟩ := List.mem_map.mp (List.elem_iff.mp hcon)
      exact hcontra_ne q hq c hqe.symm
    have fp : (evidence_prompts row).filter
        (fun s => (MANDATORY_FIELDS.map (fun p => notAnsweredMsg p.1)).contains s) = [] := by
      rw [List.filter_eq_nil_iff]
      intro s hs
      rcases evidence_prompts_shape row s hs with rfl | rfl | rfl | rfl <;> decide
    rw [fm, fv, fl, fc, fp, mandatoryAttentionItems_eq]
    simp

/-- A record ticking one mandatory field N and leaving one unanswered. -/
def c4row : Row := [("Brakes operational? (Y/N)", .vstr "N"),
  ("Certificate Current? (Y/N)", .vstr "Y")]

/-- Witness for C4: a record with brakes ticked N is FAIL, its issues
count the brakes NOT OK text exactly once, and its attention counts an
unanswered item for the register field exactly once. -/
theorem mandatory_field_rules_witness :
    (evaluate_row 20240 c4row).status = "FAIL" ∧
    (evaluate_row 20240 c4row).issues.count
      (nokMsg "Brakes operational? (Y/N)" "Sch.6 Div.3") = 1 ∧
    (evaluate_row 20240 c4row).attention.count
      (notAnsweredMsg "Register of MHE Onboard? (Y/N)") = 1 := by
  refine ⟨(mandatory_field_rules 20240 c4row).1
    ⟨("Brakes operational? (Y/N)", "Sch.6 Div.3"), by decide, by decide⟩, ?_, ?_⟩
  · have h := (mandatory_field_rules 20240 c4row).2.1
      ("Brakes operational? (Y/N)", "Sch.6 Div.3") (by decide)
    rw [h]
    decide
  · have h := (mandatory_field_rules 20240 c4row).2.2.1
      ("Register of MHE Onboard? (Y/N)", "s.25") (by decide)
    rw [h]
    decide

end MO32
